import Mathlib

/-!
# Verification of the Lab Documenter collection layer

A shallow embedding, in Lean 4, of the connection cascade and the
command-output parsing layer of the Lab Documenter home-lab inventory
tool (`modules/system.py`, `modules/system_kubernetes.py`,
`modules/system_proxmox.py`, `modules/services.py`, `modules/utils.py`).

Python strings are modelled as Lean `String` (operations are reimplemented
over `List Char` so that every definition reduces in the kernel); Python
`dict` values that hold heterogeneous data are modelled by the inductive
type `PyVal`; Python exceptions are modelled with `Except PyErr`; Python
floats are modelled by exact unnormalised fractions over `Int` (`Frac`),
which coincides with IEEE doubles on every value exercised here, noted at
each use; network and filesystem effects (`paramiko`, `json.loads`) are
modelled as explicit function parameters.
-/

namespace LabDoc

/-! ## Python string primitives

Reimplementations of the Python `str` operations the source uses, over
`List Char` so that everything reduces by `decide`/`rfl`.  Unicode-only
refinements of Python semantics (e.g. `str.lower` on non-ASCII) are out of
scope; every string the source manipulates here is ASCII. -/

/-- Characters of a string. -/
def chars (s : String) : List Char := s.data

/-- Rebuild a string from characters. -/
def ofChars (l : List Char) : String := String.mk l

/-- Python `str.strip()` (no argument): remove leading and trailing whitespace. -/
def pyStripCL (l : List Char) : List Char :=
  ((l.dropWhile Char.isWhitespace).reverse.dropWhile Char.isWhitespace).reverse

def pyStrip (s : String) : String := ofChars (pyStripCL (chars s))

/-- Python `str.strip(set)`: remove leading and trailing characters drawn from `cs`. -/
def pyStripSetCL (cs : List Char) (l : List Char) : List Char :=
  ((l.dropWhile (cs.contains ·)).reverse.dropWhile (cs.contains ·)).reverse

def pyStripSet (cs : List Char) (s : String) : String := ofChars (pyStripSetCL cs (chars s))

/-- Split on a single separator character, keeping empty fields
(Python `str.split(sep)` for a one-character separator). -/
def splitCharCL (c : Char) : List Char → List (List Char)
  | [] => [[]]
  | x :: rest =>
    let r := splitCharCL c rest
    if x = c then [] :: r
    else
      match r with
      | [] => [[x]]
      | h :: t => (x :: h) :: t

def pySplitChar (c : Char) (s : String) : List String := (splitCharCL c (chars s)).map ofChars

/-- Python `str.split(sep, 1)` for a one-character separator: split at the
first occurrence only. -/
def split1CL (c : Char) : List Char → Option (List Char × List Char)
  | [] => none
  | x :: rest =>
    if x = c then some ([], rest)
    else match split1CL c rest with
      | none => none
      | some (a, b) => some (x :: a, b)

/-- Split on runs of whitespace discarding empty fields (Python `str.split()`). -/
def splitWsCL (l : List Char) : List (List Char) :=
  ((l.splitOnP Char.isWhitespace).map id).filter (· ≠ [])

def pySplitWs (s : String) : List String := (splitWsCL (chars s)).map ofChars

/-- Python `sub in s` substring containment. -/
def containsSubCL (pat : List Char) : List Char → Bool
  | [] => pat.isEmpty
  | c :: rest => pat.isPrefixOf (c :: rest) || containsSubCL pat rest

def pyContains (s pat : String) : Bool := containsSubCL (chars pat) (chars s)

/-- Python `str.startswith`. -/
def pyStartsWith (s pat : String) : Bool := (chars pat).isPrefixOf (chars s)

/-- Python `str.endswith`. -/
def pyEndsWith (s pat : String) : Bool := (chars pat).reverse.isPrefixOf (chars s).reverse

/-- Python `str.lower` (ASCII). -/
def pyLower (s : String) : String := ofChars ((chars s).map Char.toLower)

/-- Python `str.replace(pat, repl)` for a non-empty pattern: replace every
(left-to-right, non-overlapping) occurrence. -/
def replaceSubCL (pat repl : List Char) : List Char → List Char
  | [] => []
  | c :: rest =>
    if pat.isPrefixOf (c :: rest) && !pat.isEmpty then
      repl ++ replaceSubCL pat repl (rest.drop (pat.length - 1))
    else
      c :: replaceSubCL pat repl rest
termination_by l => l.length
decreasing_by
  · simp only [List.length_drop, List.length_cons]; omega
  · simp only [List.length_cons]; omega

def pyReplace (s pat repl : String) : String :=
  ofChars (replaceSubCL (chars pat) (chars repl) (chars s))

/-- Python `str.title()` restricted to ASCII letters: the first letter of
every maximal alphabetic run is uppercased, the rest lowercased. -/
def titleCL : Bool → List Char → List Char
  | _, [] => []
  | prevAlpha, c :: rest =>
    if c.isAlpha then
      (if prevAlpha then c.toLower else c.toUpper) :: titleCL true rest
    else
      c :: titleCL false rest

def pyTitle (s : String) : String := ofChars (titleCL false (chars s))

/-- Python `str.isdigit()` (ASCII digits). -/
def pyIsDigit (s : String) : Bool := !(chars s).isEmpty && (chars s).all Char.isDigit

/-- Python truthiness of an optional command result: `None` and the empty
string are falsy. -/
def optTruthy : Option String → Bool
  | none => false
  | some s => !(chars s).isEmpty

/-! ## Python `int()` and `float()` -/

/-! ## Exact fractions

Python float arithmetic in the source is ordinary binary floating point.
The model computes with exact fractions (kept unnormalised so that every
operation is plain `Int` arithmetic and reduces in the kernel).  On every
concrete value the claims exercise — integer multiples of powers of two
divided by powers of two — the double computation is exact, so model and
source coincide there.  Denominators are kept positive; division keeps
that invariant by sign adjustment. -/

structure Frac where
  num : Int
  den : Int
deriving DecidableEq

namespace Frac

def ofInt (n : Int) : Frac := ⟨n, 1⟩

def ofNat (n : Nat) : Frac := ⟨n, 1⟩

/-- Build a fraction with a positive denominator. -/
def mk' (n d : Int) : Frac := if d < 0 then ⟨-n, -d⟩ else ⟨n, d⟩

def add (a b : Frac) : Frac := ⟨a.num * b.den + b.num * a.den, a.den * b.den⟩

def sub (a b : Frac) : Frac := ⟨a.num * b.den - b.num * a.den, a.den * b.den⟩

def mul (a b : Frac) : Frac := ⟨a.num * b.num, a.den * b.den⟩

/-- Division (the source never divides by zero: every divisor is a positive
constant or is guarded by a positivity test). -/
def div (a b : Frac) : Frac := mk' (a.num * b.den) (a.den * b.num)

def ble (a b : Frac) : Bool := a.num * b.den ≤ b.num * a.den

def blt (a b : Frac) : Bool := a.num * b.den < b.num * a.den

/-- Floor (denominators are positive, so `Int.fdiv` is exact floor division). -/
def floor (a : Frac) : Int := Int.fdiv a.num a.den

/-- Truncation toward zero (Python `int(float)`). -/
def trunc (a : Frac) : Int := if ble ⟨0, 1⟩ a then a.floor else -(Frac.floor ⟨-a.num, a.den⟩)

/-- `10^e` for a possibly negative exponent. -/
def pow10 (e : Int) : Frac :=
  if e < 0 then ⟨1, (10 : Int) ^ (-e).toNat⟩ else ⟨(10 : Int) ^ e.toNat, 1⟩

end Frac

/-- Value of a digit run that may contain single underscores between digits
(Python numeric-literal rule): non-empty, no leading/trailing underscore,
no two adjacent underscores. -/
def digitsVal : List Char → Option Nat
  | l =>
    if l = [] then none
    else if l.head? = some '_' ∨ l.getLast? = some '_' then none
    else if (l.zip (l.drop 1)).any (fun p => p.1 = '_' ∧ p.2 = '_') then none
    else if ¬ l.all (fun c => c.isDigit ∨ c = '_') then none
    else some ((l.filter Char.isDigit).foldl (fun a c => a * 10 + (c.toNat - 48)) 0)

/-- Python `int(s)` on a string: optional surrounding whitespace, optional
sign, digits (with underscore separators); `none` models `ValueError`. -/
def pyInt (s : String) : Option Int :=
  match pyStripCL (chars s) with
  | [] => none
  | '+' :: rest => (digitsVal rest).map Int.ofNat
  | '-' :: rest => (digitsVal rest).map (fun n => -(Int.ofNat n))
  | l => (digitsVal l).map Int.ofNat

/-- `int(s)` with a fallback value (models `try: int(s) except: d`). -/
def pyIntD (s : String) (d : Int) : Int := (pyInt s).getD d

/-- Plain digit run (no underscores), helper for `float` parsing. -/
def plainDigits (l : List Char) : Option Nat :=
  if l = [] ∨ ¬ l.all Char.isDigit then none
  else some (l.foldl (fun a c => a * 10 + (c.toNat - 48)) 0)

/-- Mantissa of a Python float literal: `digits`, `digits.digits`,
`digits.`, or `.digits`. -/
def floatMantissa (l : List Char) : Option Frac :=
  match split1CL '.' l with
  | none => (plainDigits l).map Frac.ofNat
  | some (ip, fp) =>
    if ip = [] ∧ fp = [] then none
    else
      match (if ip = [] then some 0 else plainDigits ip),
            (if fp = [] then some 0 else plainDigits fp) with
      | some i, some f => some (Frac.add (Frac.ofNat i) ⟨f, (10 : Int) ^ fp.length⟩)
      | _, _ => none

/-- Python `float(s)` on a string (finite decimal forms with optional
exponent; `inf`/`nan` spellings are not modelled, they do not occur in the
data this program parses). `none` models `ValueError`. -/
def pyFloat (s : String) : Option Frac :=
  let core : List Char → Option Frac := fun l =>
    match splitCharCL 'e' (l.map Char.toLower) with
    | [m] => floatMantissa m
    | [m, e] =>
      let expVal : Option Int :=
        match e with
        | '+' :: d => (plainDigits d).map Int.ofNat
        | '-' :: d => (plainDigits d).map (fun n => -(Int.ofNat n))
        | d => (plainDigits d).map Int.ofNat
      match floatMantissa m, expVal with
      | some q, some ex => some (Frac.mul q (Frac.pow10 ex))
      | _, _ => none
    | _ => none
  match pyStripCL (chars s) with
  | [] => none
  | '+' :: rest => core rest
  | '-' :: rest => (core rest).map (fun q => ⟨-q.num, q.den⟩)
  | l => core l

/-! ## `printf`-style formatting

`f"{x:.1f}"` and `f"{x:.0f}"` round half-to-even.  Python formats the
binary double, so this exact-fraction model coincides with the source
wherever the value is exactly representable — which holds for every input
appearing in the claims (powers of two and their integer multiples). -/

/-- Round half to even. -/
def roundHE (q : Frac) : Int :=
  let f := q.floor
  let r := Frac.sub q (Frac.ofInt f)
  if Frac.blt r ⟨1, 2⟩ then f
  else if Frac.blt ⟨1, 2⟩ r then f + 1
  else if f % 2 = 0 then f else f + 1

/-- `f"{q:.1f}"` for a non-negative value. -/
def fmt1Pos (q : Frac) : String :=
  let n := (roundHE (Frac.mul q (Frac.ofInt 10))).toNat
  toString (n / 10) ++ "." ++ toString (n % 10)

/-- `f"{q:.1f}"`. -/
def fmt1 (q : Frac) : String :=
  if Frac.blt q ⟨0, 1⟩ then "-" ++ fmt1Pos ⟨-q.num, q.den⟩ else fmt1Pos q

/-- `f"{q:.0f}"`. -/
def fmt0 (q : Frac) : String :=
  if Frac.blt q ⟨0, 1⟩ then "-" ++ toString (roundHE ⟨-q.num, q.den⟩).toNat
  else toString (roundHE q).toNat

/-! ## `bytes_to_gb` (modules/utils.py 573-586; the method on
`SystemCollector` in modules/system.py 632-645 is character-identical) -/

/-- `bytes_to_gb(bytes_str)`: parse the string as an integer byte count and
render it as TB/GB/MB by repeated division by 1024; a string that does not
parse as an integer is returned unchanged. -/
def bytes_to_gb (bytes_str : String) : String :=
  match pyInt bytes_str with
  | none => bytes_str
  | some bytes_value =>
    let gb_value : Frac := ⟨bytes_value, 1024 ^ 3⟩
    if Frac.ble (Frac.ofInt 1000) gb_value then
      fmt1 (Frac.div gb_value (Frac.ofInt 1024)) ++ "TB"
    else if Frac.ble (Frac.ofInt 1) gb_value then
      fmt1 gb_value ++ "GB"
    else
      fmt0 (Frac.mul gb_value (Frac.ofInt 1024)) ++ "MB"

/-! ## Python values and dictionaries

Python `dict`s with heterogeneous values are modelled as insertion-ordered
association lists over `PyVal`; assignment replaces in place (Python dicts
keep the original position of an overwritten key) and otherwise appends. -/

inductive PyVal where
  | none
  | bool (b : Bool)
  | int (n : Int)
  | float (q : Frac)
  | str (s : String)
  | list (xs : List PyVal)
  | dict (xs : List (String × PyVal))

/-- Python truthiness. -/
def PyVal.truthy : PyVal → Bool
  | .none => false
  | .bool b => b
  | .int n => n ≠ 0
  | .float q => q.num ≠ 0
  | .str s => s ≠ ""
  | .list xs => !xs.isEmpty
  | .dict xs => !xs.isEmpty

def PyVal.isNone : PyVal → Bool
  | .none => true
  | _ => false

/-- `d[k] = v` on an association list: replace in place or append. -/
def aSet {α : Type} : List (String × α) → String → α → List (String × α)
  | [], k, v => [(k, v)]
  | (k', v') :: rest, k, v =>
    if k' = k then (k, v) :: rest else (k', v') :: aSet rest k v

/-- `del d[k]`: drop the first binding of `k`. -/
def aDel {α : Type} : List (String × α) → String → List (String × α)
  | [], _ => []
  | (k', v') :: rest, k => if k' = k then rest else (k', v') :: aDel rest k

/-- Python `d.get(k)` (default `None`). -/
def dGet (d : List (String × PyVal)) (k : String) : PyVal := (d.lookup k).getD .none

/-- Python `d.get(k, dflt)`. -/
def dGetD (d : List (String × PyVal)) (k : String) (dflt : PyVal) : PyVal :=
  (d.lookup k).getD dflt

/-- Python `k in d`. -/
def dMem (d : List (String × PyVal)) (k : String) : Bool := (d.lookup k).isSome

/-- Python `v == s` between a dictionary value and a string literal:
true exactly for the equal string. -/
def pyEqStr (v : PyVal) (s : String) : Bool :=
  match v with
  | .str t => t = s
  | _ => false

/-- Python `v in [s1, …]` for a list of string literals. -/
def pyInStrs (v : PyVal) (l : List String) : Bool :=
  match v with
  | .str t => l.contains t
  | _ => false

/-! ## `parse_os_release` (modules/system.py 316-343) -/

/-- The `KEY=VALUE` scan: for each stripped line containing `=` and not
starting with `#`, split at the first `=`, lower-case the key and strip
surrounding single/double quotes from the value (`os_info` in the source). -/
def osReleaseScan (content : String) : List (String × String) :=
  (pySplitChar '\n' content).foldl
    (fun acc line =>
      let line := pyStrip line
      if pyContains line "=" && !pyStartsWith line "#" then
        match split1CL '=' (chars line) with
        | some (k, v) => aSet acc (pyLower (ofChars k)) (pyStripSet ['"', '\''] (ofChars v))
        | none => acc
      else acc)
    []

/-- The `parsed` dictionary of `parse_os_release` before the `None` filter:
required keys with their fallback chains, optional keys that may resolve to
`None`. -/
def osReleaseParsed (content : String) : List (String × PyVal) :=
  let o := osReleaseScan content
  let g : String → Option String := fun k => o.lookup k
  let opt : Option String → PyVal := fun v =>
    match v with
    | some s => .str s
    | Option.none => .none
  [("name", .str (((g "name").orElse fun _ => g "pretty_name").getD "Unknown")),
   ("version", .str (((g "version").orElse fun _ => g "version_id").getD "Unknown")),
   ("version_id", .str ((g "version_id").getD "Unknown")),
   ("version_codename", opt ((g "version_codename").orElse fun _ => g "ubuntu_codename")),
   ("id", .str ((g "id").getD "unknown")),
   ("id_like", opt (g "id_like")),
   ("pretty_name", .str (((g "pretty_name").orElse fun _ => g "name").getD "Unknown")),
   ("home_url", opt (g "home_url")),
   ("support_url", opt (g "support_url")),
   ("bug_report_url", opt (g "bug_report_url"))]

/-- `parse_os_release(os_release_content)`: the default record on falsy or
`"Unknown"` input, otherwise the parsed record with `None`-valued keys
dropped. -/
def parse_os_release (content : String) : List (String × PyVal) :=
  if content = "" ∨ content = "Unknown" then
    [("name", .str "Unknown"), ("version", .str "Unknown"), ("id", .str "unknown")]
  else
    (osReleaseParsed content).filter (fun p => !p.2.isNone)

/-- The follow-the-claim name resolution: `name`, falling back to
`pretty_name`, defaulting to `"Unknown"` (stated from the spec wording, to
be compared with the source's record). -/
def specNameResolution (content : String) : String :=
  (((osReleaseScan content).lookup "name").orElse
    fun _ => (osReleaseScan content).lookup "pretty_name").getD "Unknown"

/-! ## Pod classification

Two classifiers exist in the source: the inline rule of
`SystemCollector.get_kubernetes_info` (modules/system.py 462-470) and
`KubernetesCollector.is_pod_problematic`
(modules/system_kubernetes.py 150-179). -/

/-- A parsed pod row as both collectors build it from a whitespace-split
`kubectl get pods` line (the six always-present fields). -/
def mkPodRow (ns nm ready status restarts age : String) : List (String × PyVal) :=
  [("namespace", .str ns), ("name", .str nm), ("ready", .str ready),
   ("status", .str status), ("restarts", .str restarts), ("age", .str age)]

/-- The inline rule of `SystemCollector.get_kubernetes_info` applied to the
whitespace tokens of a pod line (`parts`, at least five tokens):
`parts[3] not in ['Running', 'Completed'] or '/' in parts[2] and
parts[2].split('/')[0] != parts[2].split('/')[1] or restarts > 5`, where
`restarts` is `int(parts[4])` with 0 on parse failure. -/
def podRowProblematic (parts : List String) : Bool :=
  let restarts := pyIntD (parts.getD 4 "") 0
  let ready := parts.getD 2 ""
  let status := parts.getD 3 ""
  !(["Running", "Completed"].contains status) ||
    (pyContains ready "/" &&
      ((pySplitChar '/' ready).getD 0 "" ≠ (pySplitChar '/' ready).getD 1 "" : Bool)) ||
    (5 < restarts : Bool)

/-- `KubernetesCollector.is_pod_problematic(pod_info)`: a fixed list of
problematic statuses, then the ready-fraction test restricted to `Running`
pods, then the restart threshold.  Parsed rows always carry strings in
`ready`/`restarts`; on a non-string the source's `'/' in ready` /
`int(restarts or '0')` would raise, which no caller can trigger. -/
def is_pod_problematic (pod_info : List (String × PyVal)) : Bool :=
  let status := dGetD pod_info "status" (.str "")
  let ready := dGetD pod_info "ready" (.str "")
  let restarts := dGetD pod_info "restarts" (.str "0")
  if ["Failed", "Error", "CrashLoopBackOff", "ImagePullBackOff",
      "Pending", "ContainerCreating", "Terminating", "Unknown"].any
        (fun s => pyEqStr status s) then
    true
  else
    let readyFlag :=
      if pyEqStr status "Running" && ready.truthy then
        match ready with
        | .str r =>
          if pyContains r "/" then
            let ready_parts := pySplitChar '/' r
            (ready_parts.length = 2 : Bool) &&
              (ready_parts.getD 0 "" ≠ ready_parts.getD 1 "" : Bool)
          else false
        | _ => false
      else false
    if readyFlag then true
    else
      match pyInt (match restarts with
                   | .str s => if s = "" then "0" else s
                   | _ => "0") with
      | some n => (5 < n : Bool)
      | Option.none => false

/-- The claim's classification rule, stated from its wording: status not
`Running` and not `Completed`, or a ready fraction `a/b` with `a ≠ b`, or
a restart count above 5. -/
def specPodProblematic (status ready restarts : String) : Bool :=
  !(["Running", "Completed"].contains status) ||
    (((pySplitChar '/' ready).length = 2 : Bool) &&
      ((pySplitChar '/' ready).getD 0 "" ≠ (pySplitChar '/' ready).getD 1 "" : Bool)) ||
    (5 < pyIntD restarts 0 : Bool)

/-! ## Problematic Proxmox resources
(`ProxmoxCollector.identify_problematic_resources`,
modules/system_proxmox.py 612-632; the inline loops of
`SystemCollector.get_proxmox_info`, modules/system.py 609-628, apply the
same two tests) -/

/-- The per-resource test the source applies to VMs and containers alike:
`status not in ['running', 'stopped'] or lock`, nested inside
`status != 'stopped' or lock`. -/
def resourceCond (r : List (String × PyVal)) : Bool :=
  (!(pyInStrs (dGet r "status") ["running", "stopped"]) || (dGet r "lock").truthy) &&
    (!(pyEqStr (dGet r "status") "stopped") || (dGet r "lock").truthy)

/-- `identify_problematic_resources(vms, containers)`. -/
def identify_problematic_resources
    (vms containers : List (List (String × PyVal))) : List (List (String × PyVal)) :=
  vms.filter resourceCond ++ containers.filter resourceCond

/-- The claim's inclusion rule, stated from its wording: status neither
`running` nor `stopped`, or the record holds a lock. -/
def specResourceProblematic (r : List (String × PyVal)) : Bool :=
  !(pyInStrs (dGet r "status") ["running", "stopped"]) || (dGet r "lock").truthy

/-! ## Python exceptions -/

inductive PyErr where
  | attributeError
  | typeError
  | keyError
  | jsonDecodeError
deriving DecidableEq

/-! ## The service database (modules/services.py)

`ServiceDatabase` state: the in-memory catalog plus the two dirty flags.
`datetime.now().strftime('%Y-%m-%d')` is passed in as the parameter `ts`.
In this repository `get_service_info` is only ever invoked with
`enhanced_data=None` (from `enhance_service`, via `get_services`) or with a
raw process-info *string* (from `get_listening_ports`), never with a dict;
the argument is therefore modelled as `Option String`. -/

structure DbState where
  db : List (String × List (String × PyVal))
  new_services_added : Bool
  services_updated : Bool

/-- `ServiceDatabase.add_unknown_service(service_name)` with falsy
`enhanced_data`: build the auto-generated record, store it under the name,
mark the catalog dirty, and return the record. -/
def add_unknown_service (st : DbState) (ts service_name : String) :
    (List (String × PyVal)) × DbState :=
  let new_service : List (String × PyVal) :=
    [("display_name", .str (pyTitle (pyReplace (pyReplace service_name ".service" "") "_" " "))),
     ("description", .str ("Unknown service - discovered on " ++ ts)),
     ("category", .str "unknown"),
     ("documentation_url", .none),
     ("support_url", .none),
     ("access", .str "Unknown - please update this entry"),
     ("notes", .str "AUTO-GENERATED: This service was automatically discovered. Please update with actual service information."),
     ("discovered_date", .str ts),
     ("last_updated", .str ts),
     ("ports", .list []),
     ("related_services", .list []),
     ("_auto_generated", .bool true)]
  (new_service, { st with db := aSet st.db service_name new_service, new_services_added := true })

/-- The `updatable_fields` list of `update_existing_service`. -/
def updatableFields : List String :=
  ["binary_path", "command_line", "working_directory", "user_context",
   "unit_file_path", "service_type", "auto_start", "dependencies",
   "config_files", "package_name", "version", "ports"]

/-- `ServiceDatabase.update_existing_service(service_name, enhanced_data)`
for a *string* `enhanced_data` (the only truthy shape callers pass):
`field in enhanced_data` is Python substring containment, and reaching
`enhanced_data[field]` raises `TypeError` (string indexed by string); when
no field name occurs in the string the loop only stamps `last_seen`. -/
def update_existing_service_str (st : DbState) (ts name s : String) :
    Except PyErr DbState :=
  match st.db.lookup name with
  | Option.none => .ok st
  | some rec =>
    if updatableFields.any (fun f => pyContains s f) then .error .typeError
    else .ok { st with db := aSet st.db name (aSet rec "last_seen" (.str ts)) }

/-- Partial-name match used by `get_service_info`:
`service_name.startswith(db_service) or service_name.endswith(db_service)
or db_service in service_name`. -/
def partialMatch (service_name key : String) : Bool :=
  pyStartsWith service_name key || pyEndsWith service_name key ||
    pyContains service_name key

/-- `ServiceDatabase.get_service_info(service_name, enhanced_data)`:
exact match (updated and re-read when `enhanced_data` is truthy), then the
first partial match, then — with truthy `enhanced_data`, which here is a
string — `enhanced_data.get('binary_path')` raising `AttributeError`;
otherwise the name is registered through `add_unknown_service`. -/
def get_service_info (st : DbState) (ts service_name : String)
    (enhanced : Option String) : Except PyErr ((List (String × PyVal)) × DbState) :=
  match st.db.lookup service_name with
  | some rec =>
    if optTruthy enhanced then do
      let st' ← update_existing_service_str st ts service_name (enhanced.getD "")
      .ok ((st'.db.lookup service_name).getD [], st')
    else .ok (rec, st)
  | Option.none =>
    match st.db.find? (fun p => partialMatch service_name p.1) with
    | some p =>
      if optTruthy enhanced then do
        let st' ← update_existing_service_str st ts p.1 (enhanced.getD "")
        .ok ((st'.db.lookup p.1).getD [], st')
      else .ok (p.2, st)
    | Option.none =>
      if optTruthy enhanced then .error .attributeError
      else .ok (add_unknown_service st ts service_name)

/-- `ServiceDatabase.enhance_service(service_name, status)` with no
`enhanced_data`: catalog record overlaid with the runtime `name`/`status`. -/
def enhance_service (st : DbState) (ts service_name status : String) :
    Except PyErr ((List (String × PyVal)) × DbState) := do
  let (db_info, st') ← get_service_info st ts service_name Option.none
  .ok (aSet (aSet db_info "name" (.str service_name)) "status" (.str status), st')

/-! ## `run_command` and the simple collectors (modules/system.py) -/

/-- `SystemCollector.run_command(command)`: `None` when no SSH client is
bound (connect never called or failed); otherwise the remote execution —
modelled as the environment `env`, with `None` for a raised exception —
with its stdout stripped. -/
def run_command (client : Option (String → Option String)) (command : String) :
    Option String :=
  match client with
  | Option.none => Option.none
  | some env => (env command).map pyStrip

/-- The command of `get_services` (braces of the awk body written as
escapes). -/
def servicesCmd : String :=
  "systemctl list-units --type=service --state=active --no-pager --plain | awk '\x7bprint $1\x7d' | grep -v '^UNIT' | head -20"

/-- `SystemCollector.get_services()`: each non-blank line of the unit list
is enhanced through the catalog. -/
def get_services (client : Option (String → Option String)) (st : DbState)
    (ts : String) : Except PyErr ((List (List (String × PyVal))) × DbState) :=
  match run_command client servicesCmd with
  | Option.none => .ok ([], st)
  | some result =>
    if result ≠ "" then
      (pySplitChar '\n' result).foldlM
        (fun acc service =>
          if pyStrip service ≠ "" then do
            let (rec, st') ← enhance_service acc.2 ts (pyStrip service) "active"
            Except.ok (acc.1 ++ [rec], st')
          else .ok acc)
        ([], st)
    else .ok ([], st)

/-- The command of `get_docker_containers` (Go-template braces written as
escapes). -/
def dockerCmd : String :=
  "docker ps --format \"table \x7b\x7b.Names\x7d\x7d\t\x7b\x7b.Image\x7d\x7d\t\x7b\x7b.Status\x7d\x7d\" 2>/dev/null"

/-- `SystemCollector.get_docker_containers()`: tab-separated rows after the
header, rows with fewer than three fields dropped. -/
def get_docker_containers (client : Option (String → Option String)) :
    List (List (String × PyVal)) :=
  match run_command client dockerCmd with
  | Option.none => []
  | some result =>
    if result ≠ "" ∧ pyContains result "NAMES" then
      ((pySplitChar '\n' result).drop 1).foldl
        (fun acc line =>
          if pyStrip line ≠ "" then
            let parts := pySplitChar '\t' line
            if parts.length ≥ 3 then
              acc ++ [[("name", .str (parts.getD 0 "")),
                       ("image", .str (parts.getD 1 "")),
                       ("status", .str (parts.getD 2 ""))]]
            else acc
          else acc)
        []
    else []

/-- The `re.search(r'\("([^"]+)"', process_info)` of `get_listening_ports`:
first position where `("` is followed by a non-empty quote-free run and a
closing quote; the capture group. -/
def regexProcName : List Char → Option (List Char)
  | [] => Option.none
  | c :: rest =>
    if c = '(' then
      match rest with
      | [] => Option.none
      | q :: rest2 =>
        if q = '"' then
          let grp := rest2.takeWhile (· ≠ '"')
          let rem := rest2.dropWhile (· ≠ '"')
          if grp ≠ [] ∧ rem ≠ [] then some grp
          else regexProcName rest
        else regexProcName rest
    else regexProcName rest

/-- The command of `get_listening_ports`. -/
def portsCmd : String := "ss -tlnp | grep LISTEN"

/-- The per-line body of `get_listening_ports`: tokenise, keep rows of at
least four tokens, extract the owning process name from the bracketed
pattern when `users:` occurs (falling back to `unknown`), and enrich
through the catalog (which, for a previously unseen name, raises — the
string-typed `enhanced_data` reaches `enhanced_data.get`). -/
def listeningPortsBody (ts : String) :
    (List (List (String × PyVal))) × DbState → String →
      Except PyErr ((List (List (String × PyVal))) × DbState) :=
  fun acc line =>
    if pyStrip line ≠ "" then
      let parts := pySplitWs line
      if parts.length ≥ 4 then do
        let process_info :=
          if parts.length > 4 then (parts.getLast?).getD "" else "unknown"
        let process_name :=
          if pyContains process_info "users:" then
            match regexProcName (chars process_info) with
            | some g => ofChars g
            | Option.none => "unknown"
          else "unknown"
        let (service_info, st') ← get_service_info acc.2 ts process_name (some process_info)
        Except.ok (acc.1 ++
          [[("port", .str (parts.getD 3 "")),
            ("process", .str process_info),
            ("process_name", .str process_name),
            ("service_info", .dict service_info)]], st')
      else .ok acc
    else .ok acc

/-- The loop of `get_listening_ports`: parse every line of a truthy
result, accumulating rows and catalog state. -/
def listeningPortsRaw (client : Option (String → Option String))
    (st : DbState) (ts : String) :
    Except PyErr ((List (List (String × PyVal))) × DbState) :=
  let result := run_command client portsCmd
  if optTruthy result then
    (pySplitChar '\n' (result.getD "")).foldlM (listeningPortsBody ts) ([], st)
  else .ok ([], st)

/-- `SystemCollector.get_listening_ports()`: parse every line, then return
`ports[:20]`. -/
def get_listening_ports (client : Option (String → Option String))
    (st : DbState) (ts : String) :
    Except PyErr ((List (List (String × PyVal))) × DbState) :=
  match listeningPortsRaw client st ts with
  | .ok (ports, st') => .ok (ports.take 20, st')
  | .error e => .error e

/-- Length of the list a fallible collector returned (0 on an error). -/
def exceptLen {β : Type} (e : Except PyErr ((List (List (String × PyVal))) × β)) : Nat :=
  match e with
  | .ok p => p.1.length
  | .error _ => 0

/-- Whether a fallible computation returned normally. -/
def exceptIsOk {α : Type} (e : Except PyErr α) : Bool :=
  match e with
  | .ok _ => true
  | .error _ => false

/-- One `ss -tlnp | grep LISTEN` line whose process resolves to `sshd`. -/
def sshdLine : String :=
  "LISTEN 0 128 0.0.0.0:22 users:((\"sshd\",pid=1,fd=3))"

/-- Twenty-one copies of `sshdLine`, newline-separated. -/
def raw21 : String := String.join (List.replicate 21 (sshdLine ++ "\n"))

/-- An environment producing 21 listening-socket lines. -/
def env21 : String → Option String :=
  fun cmd => if cmd = portsCmd then some raw21 else Option.none

/-- A catalog already holding an `sshd` entry, so that enrichment from the
socket table succeeds. -/
def dbSshd : DbState :=
  ⟨[("sshd", [("description", .str "OpenSSH server"), ("category", .str "network")])],
   false, false⟩

/-! ## Kubernetes collection

Two implementations exist: `SystemCollector.get_kubernetes_info`
(modules/system.py 411-507) and
`KubernetesCollector.collect_kubernetes_info`
(modules/system_kubernetes.py 22-65).  Both issue the same version probe
first and return the empty record when it produces nothing.  Each embedded
function returns the record together with the trace of commands passed to
`run_command`. -/

def kubectlProbeCmd : String :=
  "kubectl version --client -o json 2>/dev/null | grep gitVersion || kubectl version --client 2>/dev/null | head -1"

def clusterInfoCmd : String := "kubectl cluster-info 2>/dev/null | head -3"

def k8sNodesCmd : String := "kubectl get nodes --no-headers -o wide 2>/dev/null"

def k8sNamespacesCmd : String := "kubectl get namespaces --no-headers 2>/dev/null"

def k8sPodsCmd : String := "kubectl get pods --all-namespaces --no-headers -o wide 2>/dev/null"

def k8sServicesCmd : String := "kubectl get services --all-namespaces --no-headers 2>/dev/null"

def k8sDeploymentsCmd : String := "kubectl get deployments --all-namespaces --no-headers 2>/dev/null"

/-- Non-blank lines of a command output. -/
def nonBlankLines (s : String) : List String :=
  (pySplitChar '\n' s).filter (fun line => pyStrip line ≠ "")

/-- Node rows of `SystemCollector.get_kubernetes_info`: at least two
tokens; `roles` from token 2 and `version` from token 4, defaulting to
`Unknown`. -/
def k8sParseNodes (s : String) : List PyVal :=
  (nonBlankLines s).foldl
    (fun acc line =>
      let parts := pySplitWs line
      if parts.length ≥ 2 then
        acc ++ [.dict
          [("name", .str (parts.getD 0 "")),
           ("status", .str (parts.getD 1 "")),
           ("roles", .str (if parts.length > 2 then parts.getD 2 "" else "Unknown")),
           ("version", .str (if parts.length > 4 then parts.getD 4 "" else "Unknown"))]]
      else acc)
    []

/-- Namespace rows: the first whitespace token of each non-blank line. -/
def k8sParseNamespaces (s : String) : List PyVal :=
  (nonBlankLines s).map (fun line => .str ((pySplitWs line).getD 0 ""))

/-- Pod rows of `SystemCollector.get_kubernetes_info` (at least five
tokens) plus the problematic sub-list selected by the inline rule. -/
def k8sParsePods (s : String) : List PyVal × List PyVal :=
  (nonBlankLines s).foldl
    (fun acc line =>
      let parts := pySplitWs line
      if parts.length ≥ 5 then
        let pod := mkPodRow (parts.getD 0 "") (parts.getD 1 "") (parts.getD 2 "")
          (parts.getD 3 "") (parts.getD 4 "")
          (if parts.length > 5 then parts.getD 5 "" else "Unknown")
        (acc.1 ++ [.dict pod],
         if podRowProblematic parts then acc.2 ++ [.dict pod] else acc.2)
      else acc)
    ([], [])

/-- Service rows of `SystemCollector.get_kubernetes_info` (at least four
tokens; `external_ip` is `None` when absent or `<none>`). -/
def k8sParseServices (s : String) : List PyVal :=
  (nonBlankLines s).foldl
    (fun acc line =>
      let parts := pySplitWs line
      if parts.length ≥ 4 then
        acc ++ [.dict
          [("namespace", .str (parts.getD 0 "")),
           ("name", .str (parts.getD 1 "")),
           ("type", .str (parts.getD 2 "")),
           ("cluster_ip", .str (parts.getD 3 "")),
           ("external_ip",
             if parts.length > 4 ∧ parts.getD 4 "" ≠ "<none>" then .str (parts.getD 4 "")
             else .none),
           ("ports", .str (if parts.length > 5 then parts.getD 5 "" else "Unknown"))]]
      else acc)
    []

/-- Deployment rows of `SystemCollector.get_kubernetes_info`. -/
def k8sParseDeployments (s : String) : List PyVal :=
  (nonBlankLines s).foldl
    (fun acc line =>
      let parts := pySplitWs line
      if parts.length ≥ 4 then
        acc ++ [.dict
          [("namespace", .str (parts.getD 0 "")),
           ("name", .str (parts.getD 1 "")),
           ("ready", .str (parts.getD 2 "")),
           ("up_to_date", .str (parts.getD 3 "")),
           ("available", .str (if parts.length > 4 then parts.getD 4 "" else "Unknown")),
           ("age", .str (if parts.length > 5 then parts.getD 5 "" else "Unknown"))]]
      else acc)
    []

/-- `SystemCollector.get_kubernetes_info()`: empty record as soon as the
`kubectl` version probe yields nothing, otherwise the six section
commands, each section added only when its output is truthy. -/
def get_kubernetes_info (client : Option (String → Option String)) :
    (List (String × PyVal)) × List String :=
  let v := run_command client kubectlProbeCmd
  if ¬ optTruthy v then ([], [kubectlProbeCmd])
  else
    let info0 := [("kubectl_version", PyVal.str (pyStrip (v.getD "")))]
    let ci := run_command client clusterInfoCmd
    let info1 := if optTruthy ci then aSet info0 "cluster_info" (.str (ci.getD "")) else info0
    let nd := run_command client k8sNodesCmd
    let info2 :=
      if optTruthy nd then aSet info1 "nodes" (.list (k8sParseNodes (nd.getD ""))) else info1
    let ns := run_command client k8sNamespacesCmd
    let info3 :=
      if optTruthy ns then aSet info2 "namespaces" (.list (k8sParseNamespaces (ns.getD "")))
      else info2
    let pd := run_command client k8sPodsCmd
    let info4 :=
      if optTruthy pd then
        let pp := k8sParsePods (pd.getD "")
        let i := aSet info3 "pods" (.list pp.1)
        if !pp.2.isEmpty then aSet i "problematic_pods" (.list pp.2) else i
      else info3
    let sv := run_command client k8sServicesCmd
    let info5 :=
      if optTruthy sv then aSet info4 "services" (.list (k8sParseServices (sv.getD "")))
      else info4
    let dp := run_command client k8sDeploymentsCmd
    let info6 :=
      if optTruthy dp then aSet info5 "deployments" (.list (k8sParseDeployments (dp.getD "")))
      else info5
    (info6, [kubectlProbeCmd, clusterInfoCmd, k8sNodesCmd, k8sNamespacesCmd,
             k8sPodsCmd, k8sServicesCmd, k8sDeploymentsCmd])

/-- `KubernetesCollector.collect_nodes()`: the wide node rows with the
optional columns 5-9. -/
def kcCollectNodes (client : Option (String → Option String)) : List PyVal :=
  match run_command client k8sNodesCmd with
  | Option.none => []
  | some nodes =>
    if nodes = "" then []
    else
      (nonBlankLines nodes).foldl
        (fun acc line =>
          let parts := pySplitWs line
          if parts.length ≥ 2 then
            let base : List (String × PyVal) :=
              [("name", .str (parts.getD 0 "")),
               ("status", .str (parts.getD 1 "")),
               ("roles", .str (if parts.length > 2 then parts.getD 2 "" else "Unknown")),
               ("age", .str (if parts.length > 3 then parts.getD 3 "" else "Unknown")),
               ("version", .str (if parts.length > 4 then parts.getD 4 "" else "Unknown"))]
            let base := if parts.length > 5 then aSet base "internal_ip" (.str (parts.getD 5 "")) else base
            let base := if parts.length > 6 then
                aSet base "external_ip"
                  (if parts.getD 6 "" ≠ "<none>" then .str (parts.getD 6 "") else .none)
              else base
            let base := if parts.length > 7 then aSet base "os_image" (.str (parts.getD 7 "")) else base
            let base := if parts.length > 8 then aSet base "kernel_version" (.str (parts.getD 8 "")) else base
            let base := if parts.length > 9 then aSet base "container_runtime" (.str (parts.getD 9 "")) else base
            acc ++ [.dict base]
          else acc)
        []

/-- `KubernetesCollector.collect_namespaces()`. -/
def kcCollectNamespaces (client : Option (String → Option String)) : List PyVal :=
  match run_command client k8sNamespacesCmd with
  | Option.none => []
  | some namespaces =>
    if namespaces = "" then [] else k8sParseNamespaces namespaces

/-- `KubernetesCollector.collect_pods()`: pod rows with the optional
columns 6-9, the problematic sub-list selected by `is_pod_problematic`. -/
def kcCollectPods (client : Option (String → Option String)) : List PyVal × List PyVal :=
  match run_command client k8sPodsCmd with
  | Option.none => ([], [])
  | some pods =>
    if pods = "" then ([], [])
    else
      (nonBlankLines pods).foldl
        (fun acc line =>
          let parts := pySplitWs line
          if parts.length ≥ 5 then
            let base := mkPodRow (parts.getD 0 "") (parts.getD 1 "") (parts.getD 2 "")
              (parts.getD 3 "") (parts.getD 4 "")
              (if parts.length > 5 then parts.getD 5 "" else "Unknown")
            let base := if parts.length > 6 then
                aSet base "ip" (if parts.getD 6 "" ≠ "<none>" then .str (parts.getD 6 "") else .none)
              else base
            let base := if parts.length > 7 then aSet base "node" (.str (parts.getD 7 "")) else base
            let base := if parts.length > 8 then
                aSet base "nominated_node"
                  (if parts.getD 8 "" ≠ "<none>" then .str (parts.getD 8 "") else .none)
              else base
            let base := if parts.length > 9 then
                aSet base "readiness_gates"
                  (if parts.getD 9 "" ≠ "<none>" then .str (parts.getD 9 "") else .none)
              else base
            (acc.1 ++ [.dict base],
             if is_pod_problematic base then acc.2 ++ [.dict base] else acc.2)
          else acc)
        ([], [])

/-- `KubernetesCollector.collect_services()` (adds the `age` column). -/
def kcCollectServices (client : Option (String → Option String)) : List PyVal :=
  match run_command client k8sServicesCmd with
  | Option.none => []
  | some services =>
    if services = "" then []
    else
      (nonBlankLines services).foldl
        (fun acc line =>
          let parts := pySplitWs line
          if parts.length ≥ 4 then
            acc ++ [.dict
              [("namespace", .str (parts.getD 0 "")),
               ("name", .str (parts.getD 1 "")),
               ("type", .str (parts.getD 2 "")),
               ("cluster_ip", .str (parts.getD 3 "")),
               ("external_ip",
                 if parts.length > 4 ∧ parts.getD 4 "" ≠ "<none>" then .str (parts.getD 4 "")
                 else .none),
               ("ports", .str (if parts.length > 5 then parts.getD 5 "" else "Unknown")),
               ("age", .str (if parts.length > 6 then parts.getD 6 "" else "Unknown"))]]
          else acc)
        []

/-- `KubernetesCollector.collect_deployments()` (adds the `age` column). -/
def kcCollectDeployments (client : Option (String → Option String)) : List PyVal :=
  match run_command client k8sDeploymentsCmd with
  | Option.none => []
  | some deployments =>
    if deployments = "" then []
    else
      (nonBlankLines deployments).foldl
        (fun acc line =>
          let parts := pySplitWs line
          if parts.length ≥ 4 then
            acc ++ [.dict
              [("namespace", .str (parts.getD 0 "")),
               ("name", .str (parts.getD 1 "")),
               ("ready", .str (parts.getD 2 "")),
               ("up_to_date", .str (parts.getD 3 "")),
               ("available", .str (if parts.length > 4 then parts.getD 4 "" else "Unknown")),
               ("age", .str (if parts.length > 5 then parts.getD 5 "" else "Unknown"))]]
          else acc)
        []

/-- `KubernetesCollector.collect_kubernetes_info()`: the same leading
version probe, then the section collectors, every section added only when
non-empty. -/
def collect_kubernetes_info (client : Option (String → Option String)) :
    (List (String × PyVal)) × List String :=
  let v := run_command client kubectlProbeCmd
  if ¬ optTruthy v then ([], [kubectlProbeCmd])
  else
    let info0 := [("kubectl_version", PyVal.str (pyStrip (v.getD "")))]
    let ci := run_command client clusterInfoCmd
    let info1 := if optTruthy ci then aSet info0 "cluster_info" (.str (ci.getD "")) else info0
    let nodes_data := kcCollectNodes client
    let info2 := if !nodes_data.isEmpty then aSet info1 "nodes" (.list nodes_data) else info1
    let namespaces_data := kcCollectNamespaces client
    let info3 :=
      if !namespaces_data.isEmpty then aSet info2 "namespaces" (.list namespaces_data) else info2
    let pods_data := kcCollectPods client
    let info4 :=
      if !pods_data.1.isEmpty then
        let i := aSet info3 "pods" (.list pods_data.1)
        if !pods_data.2.isEmpty then aSet i "problematic_pods" (.list pods_data.2) else i
      else info3
    let services_data := kcCollectServices client
    let info5 :=
      if !services_data.isEmpty then aSet info4 "services" (.list services_data) else info4
    let deployments_data := kcCollectDeployments client
    let info6 :=
      if !deployments_data.isEmpty then aSet info5 "deployments" (.list deployments_data)
      else info5
    (info6, [kubectlProbeCmd, clusterInfoCmd, k8sNodesCmd, k8sNamespacesCmd,
             k8sPodsCmd, k8sServicesCmd, k8sDeploymentsCmd])

/-! ## Proxmox collection (modules/system.py 509-1111)

`json.loads` is modelled by the parameter `jparse : String → Option PyVal`
(`Option.none` standing for `json.JSONDecodeError`).  `.get` on a value
that is not a dict raises `AttributeError`; arithmetic and order
comparisons on non-numeric values raise `TypeError`; the source's `try`
blocks catch exactly the exception classes they name, so `AttributeError`
(and `TypeError` where unlisted) propagates out of the collector just as
in Python. -/

/-- `str(x)` as the probes use it.  Exact for strings, ints, bools and
`None`; a float renders exactly only when integral (the only numeric
shapes these probes format); containers are rendered coarsely — no claim
depends on those renderings. -/
def pyStrOf : PyVal → String
  | .str s => s
  | .int n => toString n
  | .bool b => if b then "True" else "False"
  | .none => "None"
  | .float q => if q.den = 1 then toString q.num ++ ".0"
                else toString q.num ++ "/" ++ toString q.den
  | .list _ => "[...]"
  | .dict _ => "\x7b...\x7d"

/-- `x.get(k)` (default `None`): `AttributeError` unless `x` is a dict. -/
def pyDictGet (v : PyVal) (k : String) : Except PyErr PyVal :=
  match v with
  | .dict d => .ok (dGet d k)
  | _ => .error .attributeError

/-- `x.get(k, dflt)`. -/
def pyDictGetD (v : PyVal) (k : String) (dflt : PyVal) : Except PyErr PyVal :=
  match v with
  | .dict d => .ok (dGetD d k dflt)
  | _ => .error .attributeError

/-- `for item in x`: list elements, dict keys, or the characters of a
string; `TypeError` otherwise. -/
def pyIterList (v : PyVal) : Except PyErr (List PyVal) :=
  match v with
  | .list xs => .ok xs
  | .dict d => .ok (d.map fun p => .str p.1)
  | .str s => .ok ((chars s).map fun c => .str (ofChars [c]))
  | _ => .error .typeError

/-- Numeric coercion for arithmetic/comparisons (`bool` counts as 0/1);
`TypeError` otherwise. -/
def pyNum (v : PyVal) : Except PyErr Frac :=
  match v with
  | .int n => .ok (Frac.ofInt n)
  | .float q => .ok q
  | .bool b => .ok (Frac.ofInt (if b then 1 else 0))
  | _ => .error .typeError

/-- `dict.update(other)`. -/
def dUpdate (base upd : List (String × PyVal)) : List (String × PyVal) :=
  upd.foldl (fun b p => aSet b p.1 p.2) base

/-- `line.split(':', 1)[1]` (call sites guard that a colon is present). -/
def pySplitColon1 (line : String) : String :=
  match split1CL ':' (chars line) with
  | some (_, t) => ofChars t
  | Option.none => ""

/-- `json.loads` lifted to the exception monad. -/
def pyLoads (jparse : String → Option PyVal) (s : String) : Except PyErr PyVal :=
  match jparse s with
  | some v => .ok v
  | Option.none => .error .jsonDecodeError

/-- The exception classes of `except (json.JSONDecodeError, KeyError,
TypeError)`. -/
def caughtJKT (e : PyErr) : Bool :=
  e = .jsonDecodeError || e = .keyError || e = .typeError

/-- The exception classes of `except (json.JSONDecodeError, KeyError)`. -/
def caughtJK (e : PyErr) : Bool :=
  e = .jsonDecodeError || e = .keyError

def pveversionCmd : String := "pveversion 2>/dev/null"

def clusterStatusJsonCmd : String := "pvesh get /cluster/status --output-format=json 2>/dev/null"

def pvecmStatusCmd : String := "pvecm status 2>/dev/null"

def pvecmNodesCmd : String := "pvecm nodes 2>/dev/null"

def hostnameCmd : String := "hostname"

def nodeStatusSelfCmd : String :=
  "pvesh get /nodes/$(hostname)/status --output-format=json 2>/dev/null"

def clusterResourcesCmd : String :=
  "pvesh get /cluster/resources --output-format=json 2>/dev/null"

def qmListCmd : String := "qm list 2>/dev/null"

def pctListCmd : String := "pct list 2>/dev/null"

def pvesmStatusCmd : String := "pvesm status 2>/dev/null"

def nodeStatusCmd (node_name : String) : String :=
  "pvesh get /nodes/" ++ node_name ++ "/status --output-format=json 2>/dev/null"

def vmConfigCmd (node_name vmid : String) : String :=
  "pvesh get /nodes/" ++ node_name ++ "/qemu/" ++ vmid ++ "/config --output-format=json 2>/dev/null"

def vmStatusCmd (node_name vmid : String) : String :=
  "pvesh get /nodes/" ++ node_name ++ "/qemu/" ++ vmid ++ "/status/current --output-format=json 2>/dev/null"

def ctConfigCmd (node_name vmid : String) : String :=
  "pvesh get /nodes/" ++ node_name ++ "/lxc/" ++ vmid ++ "/config --output-format=json 2>/dev/null"

def ctStatusCmd (node_name vmid : String) : String :=
  "pvesh get /nodes/" ++ node_name ++ "/lxc/" ++ vmid ++ "/status/current --output-format=json 2>/dev/null"

/-- `convert_uptime_seconds(uptime_seconds)`
(modules/system.py 874-898): `int(float(str(x)))`, floor/mod split into
days/hours/minutes/seconds, pluralised, first three parts joined; the
original value echoed back (as `str`) when the conversion fails. -/
def convert_uptime_seconds (uptime_seconds : PyVal) : String :=
  match pyFloat (pyStrOf uptime_seconds) with
  | Option.none => pyStrOf uptime_seconds
  | some q =>
    let seconds := Frac.trunc q
    let days := Int.fdiv seconds 86400
    let hours := Int.fdiv (Int.emod seconds 86400) 3600
    let minutes := Int.fdiv (Int.emod seconds 3600) 60
    let remaining := Int.emod seconds 60
    let base : List String :=
      (if 0 < days then [toString days ++ " day" ++ (if days ≠ 1 then "s" else "")] else []) ++
      (if 0 < hours then [toString hours ++ " hour" ++ (if hours ≠ 1 then "s" else "")] else []) ++
      (if 0 < minutes then [toString minutes ++ " minute" ++ (if minutes ≠ 1 then "s" else "")] else [])
    let parts := base ++
      (if 0 < remaining ∨ base = [] then
        [toString remaining ++ " second" ++ (if remaining ≠ 1 then "s" else "")]
      else [])
    String.intercalate ", " (parts.take 3)

/-- The `break`-terminated scan of `parse_cluster_json`: the first item of
type `cluster` fills the record. -/
def parseClusterJsonGo (base : List (String × PyVal)) :
    List PyVal → Except PyErr (List (String × PyVal))
  | [] => .ok base
  | item :: rest => do
    let t ← pyDictGet item "type"
    if pyEqStr t "cluster" then do
      let nm ← pyDictGetD item "name" (.str "Unknown")
      let nodes ← pyDictGetD item "nodes" (.int 0)
      let ver ← pyDictGetD item "version" (.str "Unknown")
      let quorate ← pyDictGetD item "quorate" (.int 0)
      .ok (aSet (aSet (aSet (aSet base "name" nm) "node_count" nodes)
        "config_version" ver) "quorate" (.bool quorate.truthy))
    else parseClusterJsonGo base rest

/-- `parse_cluster_json(cluster_data)` (modules/system.py 647-659). -/
def parse_cluster_json (cluster_data : PyVal) : Except PyErr (List (String × PyVal)) := do
  let items ← pyIterList cluster_data
  parseClusterJsonGo [("clustered", .bool true)] items

/-- `get_node_detailed_status(node_name)` (modules/system.py 900-931):
its `try` catches `JSONDecodeError`, `KeyError` and `TypeError`, returning
the empty record; `AttributeError` propagates. -/
def get_node_detailed_status (client : Option (String → Option String))
    (jparse : String → Option PyVal) (node_name : String) :
    Except PyErr (List (String × PyVal)) :=
  let body : Except PyErr (List (String × PyVal)) := do
    match run_command client (nodeStatusCmd node_name) with
    | Option.none => .ok []
    | some node_status =>
      if node_status = "" then .ok []
      else do
        let status_data ← pyLoads jparse node_status
        let cpu_raw ← pyDictGetD status_data "cpu" (.int 0)
        let cq ← pyNum cpu_raw
        let cpu_percentage :=
          if Frac.blt cq (Frac.ofInt 1) then fmt1 (Frac.mul cq (Frac.ofInt 100)) ++ "%"
          else fmt1 cq ++ "%"
        let uptime ← pyDictGetD status_data "uptime" (.int 0)
        let memory0 ← pyDictGetD status_data "memory" (.dict [])
        let memTotal ← pyDictGetD memory0 "total" (.int 0)
        let memUsed ← pyDictGetD memory0 "used" (.int 0)
        let memTotal1 ← pyDictGetD memory0 "total" (.int 1)
        let qUsed ← pyNum memUsed
        let qTotal1 ← pyNum memTotal1
        let maxT := if Frac.blt qTotal1 (Frac.ofInt 1) then Frac.ofInt 1 else qTotal1
        let la ← pyDictGetD status_data "loadavg" (.str "Unknown")
        let kv ← pyDictGetD status_data "kversion" (.str "Unknown")
        let pv ← pyDictGetD status_data "pveversion" (.str "Unknown")
        .ok [("cpu_usage", .str cpu_percentage),
             ("memory_total", .str (bytes_to_gb (pyStrOf memTotal))),
             ("memory_used", .str (bytes_to_gb (pyStrOf memUsed))),
             ("memory_usage_percent",
               .str (fmt1 (Frac.mul (Frac.div qUsed maxT) (Frac.ofInt 100)) ++ "%")),
             ("uptime", .str (convert_uptime_seconds uptime)),
             ("uptime_seconds", uptime),
             ("load_average", la),
             ("kernel_version", kv),
             ("pve_version", pv)]
  match body with
  | .ok r => .ok r
  | .error e => if caughtJKT e then .ok [] else .error e

/-- The loop of `parse_nodes_json`: every item of type `node`, with the
detailed status merged in for online nodes. -/
def parseNodesJsonGo (client : Option (String → Option String))
    (jparse : String → Option PyVal) :
    List PyVal → Except PyErr (List PyVal)
  | [] => .ok []
  | item :: rest => do
    let t ← pyDictGet item "type"
    if pyEqStr t "node" then do
      let nm ← pyDictGetD item "name" (.str "Unknown")
      let nodeid ← pyDictGetD item "nodeid" (.str "Unknown")
      let onlineRaw ← pyDictGet item "online"
      let online0 ← pyDictGetD item "online" (.int 0)
      let ip ← pyDictGetD item "ip" (.str "Unknown")
      let lcl ← pyDictGetD item "local" (.int 0)
      let ty ← pyDictGetD item "type" (.str "node")
      let lvl ← pyDictGetD item "level" (.str "")
      let node : List (String × PyVal) :=
        [("name", nm), ("id", nodeid),
         ("status", .str (if onlineRaw.truthy then "online" else "offline")),
         ("online", .bool online0.truthy),
         ("ip", ip), ("local", .bool lcl.truthy), ("type", ty), ("level", lvl)]
      let node ←
        if online0.truthy then do
          let det ← get_node_detailed_status client jparse (pyStrOf nm)
          pure (if !det.isEmpty then dUpdate node det else node)
        else pure node
      let rest' ← parseNodesJsonGo client jparse rest
      .ok (.dict node :: rest')
    else parseNodesJsonGo client jparse rest

/-- `parse_nodes_json(cluster_data)` (modules/system.py 661-686). -/
def parse_nodes_json (client : Option (String → Option String))
    (jparse : String → Option PyVal) (cluster_data : PyVal) :
    Except PyErr (List PyVal) := do
  let items ← pyIterList cluster_data
  parseNodesJsonGo client jparse items

/-- `parse_cluster_status(cluster_status)` (modules/system.py 688-709):
line-wise scan for the labelled fields of `pvecm status` output. -/
def parse_cluster_status (cluster_status : String) : List (String × PyVal) :=
  (pySplitChar '\n' cluster_status).foldl
    (fun acc line =>
      let line := pyStrip line
      if pyContains line "Name:" then
        aSet acc "name" (.str (pyStrip (pySplitColon1 line)))
      else if pyContains line "Config Version:" then
        aSet acc "config_version" (.str (pyStrip (pySplitColon1 line)))
      else if pyContains line "Transport:" then
        aSet acc "transport" (.str (pyStrip (pySplitColon1 line)))
      else if pyContains line "Nodes:" then
        match pyInt (pyStrip ((pySplitChar ':' line).getD 1 "")) with
        | some n => aSet acc "node_count" (.int n)
        | Option.none => acc
      else if pyContains line "Quorate:" then
        aSet acc "quorate" (.bool (pyContains line "Yes"))
      else acc)
    [("clustered", .bool true)]

/-- `parse_cluster_nodes(nodes_output)` (modules/system.py 711-745): the
membership table of `pvecm nodes`, marking `(local)` entries. -/
def parse_cluster_nodes (nodes_output : String) : List PyVal :=
  ((pySplitChar '\n' nodes_output).foldl
    (fun (st : Bool × List PyVal) line =>
      let line := pyStrip line
      if pyContains line "Membership information" then (true, st.2)
      else if st.1 ∧ line ≠ "" ∧ ¬ pyStartsWith line "Nodeid" ∧ ¬ pyStartsWith line "---" then
        let parts := pySplitWs line
        if parts.length ≥ 3 then
          let nm := parts.getD 2 ""
          let node : List (String × PyVal) :=
            [("name", .str nm), ("id", .str (parts.getD 0 "")),
             ("votes", .str (parts.getD 1 "")),
             ("status", .str "online"), ("online", .bool true)]
          let node :=
            if pyContains nm "(local)" then
              aSet (aSet node "name" (.str (pyStrip (pyReplace nm "(local)" ""))))
                "local" (.bool true)
            else aSet node "local" (.bool false)
          (st.1, st.2 ++ [.dict node])
        else st
      else st)
    (false, [])).2

/-- `x.items()` (`AttributeError` unless a dict). -/
def pyDictItems (v : PyVal) : Except PyErr (List (String × PyVal)) :=
  match v with
  | .dict d => .ok d
  | _ => .error .attributeError

/-- Stage one of `get_vm_detailed_info` (modules/system.py 991-1011): the
VM config probe, its seven fields and the `net*` interface list. -/
def vmDetailStage1 (client : Option (String → Option String))
    (jparse : String → Option PyVal) (node_name vmid : String) :
    Except PyErr (List (String × PyVal)) := do
  match run_command client (vmConfigCmd node_name vmid) with
  | Option.none => .ok []
  | some config =>
    if config = "" then .ok []
    else do
      let config_data ← pyLoads jparse config
      let cores ← pyDictGetD config_data "cores" (.str "Unknown")
      let sockets ← pyDictGetD config_data "sockets" (.str "Unknown")
      let memory ← pyDictGetD config_data "memory" (.str "Unknown")
      let bootdisk ← pyDictGetD config_data "bootdisk" (.str "Unknown")
      let desc ← pyDictGetD config_data "description" (.str "")
      let tags ← pyDictGetD config_data "tags" (.str "")
      let startup ← pyDictGetD config_data "startup" (.str "")
      let items ← pyDictItems config_data
      let networks := (items.filter fun p => pyStartsWith p.1 "net").map
        fun p => PyVal.str (p.1 ++ ": " ++ pyStrOf p.2)
      .ok (aSet
        [("cores", cores), ("sockets", sockets), ("memory_mb", memory),
         ("bootdisk", bootdisk), ("description", desc), ("tags", tags),
         ("ha_priority", startup)]
        "networks" (.list networks))

/-- Stage two of `get_vm_detailed_info` (modules/system.py 1013-1043): the
current-status probe merged over the config fields. -/
def vmDetailStage2 (client : Option (String → Option String))
    (jparse : String → Option PyVal) (node_name vmid : String)
    (d1 : List (String × PyVal)) : Except PyErr (List (String × PyVal)) := do
  match run_command client (vmStatusCmd node_name vmid) with
  | Option.none => .ok d1
  | some s =>
    if s = "" then .ok d1
    else do
      let status_data ← pyLoads jparse s
      let cpu_raw ← pyDictGetD status_data "cpu" (.int 0)
      let cq ← pyNum cpu_raw
      let cpu_percentage :=
        if Frac.blt cq (Frac.ofInt 1) then fmt1 (Frac.mul cq (Frac.ofInt 100)) ++ "%"
        else fmt1 cq ++ "%"
      let uptime ← pyDictGetD status_data "uptime" (.int 0)
      let mem ← pyDictGetD status_data "mem" (.int 0)
      let pid ← pyDictGetD status_data "pid" (.str "Unknown")
      let ha ← pyDictGetD status_data "ha" (.dict [])
      let d2 := dUpdate d1
        [("uptime", .str (convert_uptime_seconds uptime)),
         ("uptime_seconds", uptime),
         ("cpu_usage", .str cpu_percentage),
         ("memory_current", .str (bytes_to_gb (pyStrOf mem))),
         ("pid", pid),
         ("ha_state", ha)]
      let sd ← pyDictItems status_data
      if (sd.lookup "netin").isSome ∧ (sd.lookup "netout").isSome then do
        let netin ← pyDictGetD status_data "netin" (.int 0)
        let netout ← pyDictGetD status_data "netout" (.int 0)
        .ok (aSet d2 "network_io" (.dict
          [("bytes_in", .str (bytes_to_gb (pyStrOf netin))),
           ("bytes_out", .str (bytes_to_gb (pyStrOf netout)))]))
      else .ok d2

/-- `get_vm_detailed_info(node_name, vmid)` (modules/system.py 986-1048):
one `try` over both stages catching `JSONDecodeError`, `KeyError`,
`TypeError`; the record accumulated so far is returned on a caught
exception. -/
def get_vm_detailed_info (client : Option (String → Option String))
    (jparse : String → Option PyVal) (node_name vmid : String) :
    Except PyErr (List (String × PyVal)) :=
  match vmDetailStage1 client jparse node_name vmid with
  | .error e => if caughtJKT e then .ok [] else .error e
  | .ok d1 =>
    match vmDetailStage2 client jparse node_name vmid d1 with
    | .error e => if caughtJKT e then .ok d1 else .error e
    | .ok d2 => .ok d2

/-- Stage one of `get_container_detailed_info`
(modules/system.py 1054-1080): config fields, `net*` interfaces and `mp*`
mount points. -/
def ctDetailStage1 (client : Option (String → Option String))
    (jparse : String → Option PyVal) (node_name vmid : String) :
    Except PyErr (List (String × PyVal)) := do
  match run_command client (ctConfigCmd node_name vmid) with
  | Option.none => .ok []
  | some config =>
    if config = "" then .ok []
    else do
      let config_data ← pyLoads jparse config
      let cores ← pyDictGetD config_data "cores" (.str "Unknown")
      let memory ← pyDictGetD config_data "memory" (.str "Unknown")
      let swap ← pyDictGetD config_data "swap" (.str "Unknown")
      let desc ← pyDictGetD config_data "description" (.str "")
      let tags ← pyDictGetD config_data "tags" (.str "")
      let rootfs ← pyDictGetD config_data "rootfs" (.str "Unknown")
      let items ← pyDictItems config_data
      let networks := (items.filter fun p => pyStartsWith p.1 "net").map
        fun p => PyVal.str (p.1 ++ ": " ++ pyStrOf p.2)
      let mounts := (items.filter fun p => pyStartsWith p.1 "mp").map
        fun p => PyVal.str (p.1 ++ ": " ++ pyStrOf p.2)
      .ok (aSet (aSet
        [("cores", cores), ("memory_mb", memory), ("swap_mb", swap),
         ("description", desc), ("tags", tags), ("rootfs", rootfs)]
        "networks" (.list networks))
        "mount_points" (.list mounts))

/-- Stage two of `get_container_detailed_info`
(modules/system.py 1082-1106). -/
def ctDetailStage2 (client : Option (String → Option String))
    (jparse : String → Option PyVal) (node_name vmid : String)
    (d1 : List (String × PyVal)) : Except PyErr (List (String × PyVal)) := do
  match run_command client (ctStatusCmd node_name vmid) with
  | Option.none => .ok d1
  | some s =>
    if s = "" then .ok d1
    else do
      let status_data ← pyLoads jparse s
      let cpu_raw ← pyDictGetD status_data "cpu" (.int 0)
      let cq ← pyNum cpu_raw
      let cpu_percentage :=
        if Frac.blt cq (Frac.ofInt 1) then fmt1 (Frac.mul cq (Frac.ofInt 100)) ++ "%"
        else fmt1 cq ++ "%"
      let uptime ← pyDictGetD status_data "uptime" (.int 0)
      let mem ← pyDictGetD status_data "mem" (.int 0)
      let swap ← pyDictGetD status_data "swap" (.int 0)
      let disk ← pyDictGetD status_data "disk" (.int 0)
      let pid ← pyDictGetD status_data "pid" (.str "Unknown")
      .ok (dUpdate d1
        [("uptime", .str (convert_uptime_seconds uptime)),
         ("uptime_seconds", uptime),
         ("cpu_usage", .str cpu_percentage),
         ("memory_current", .str (bytes_to_gb (pyStrOf mem))),
         ("swap_current", .str (bytes_to_gb (pyStrOf swap))),
         ("disk_usage", .str (bytes_to_gb (pyStrOf disk))),
         ("pid", pid)])

/-- `get_container_detailed_info(node_name, vmid)`
(modules/system.py 1050-1111). -/
def get_container_detailed_info (client : Option (String → Option String))
    (jparse : String → Option PyVal) (node_name vmid : String) :
    Except PyErr (List (String × PyVal)) :=
  match ctDetailStage1 client jparse node_name vmid with
  | .error e => if caughtJKT e then .ok [] else .error e
  | .ok d1 =>
    match ctDetailStage2 client jparse node_name vmid d1 with
    | .error e => if caughtJKT e then .ok d1 else .error e
    | .ok d2 => .ok d2

/-- `run_command('hostname') or 'localhost'`. -/
def currentNode (client : Option (String → Option String)) : String :=
  match run_command client hostnameCmd with
  | some h => if h ≠ "" then h else "localhost"
  | Option.none => "localhost"

/-- The loop of `parse_vm_list` (modules/system.py 747-804): rows of at
least three tokens, memory/disk/pid columns when present, detailed info
for the first 20 running/stopped VMs. -/
def parseVmListGo (client : Option (String → Option String))
    (jparse : String → Option PyVal) (node_name : String) :
    Nat → List String → Except PyErr (List PyVal)
  | _, [] => .ok []
  | count, line :: rest =>
    if pyStrip line ≠ "" then
      let parts := pySplitWs line
      if parts.length ≥ 3 then do
        let vm : List (String × PyVal) :=
          [("vmid", .str (parts.getD 0 "")), ("name", .str (parts.getD 1 "")),
           ("status", .str (parts.getD 2 "")), ("type", .str "vm")]
        let vm :=
          if parts.length > 3 then
            let memory_mb := parts.getD 3 ""
            aSet vm "memory_allocated"
              (.str (if memory_mb ≠ "Unknown" ∧ pyIsDigit memory_mb then memory_mb ++ "MB"
                     else memory_mb))
          else vm
        let vm :=
          if parts.length > 4 then
            let disk_size := parts.getD 4 ""
            aSet vm "disk_size"
              (.str (if disk_size ≠ "Unknown" then
                       match pyFloat disk_size with
                       | some q => fmt1 q ++ "GB"
                       | Option.none => disk_size
                     else "Unknown"))
          else vm
        let vm := if parts.length > 5 then aSet vm "pid" (.str (parts.getD 5 "")) else vm
        let step ←
          if (parts.getD 2 "" = "running" ∨ parts.getD 2 "" = "stopped") ∧ count < 20 then do
            let det ← get_vm_detailed_info client jparse node_name (parts.getD 0 "")
            if !det.isEmpty then pure (aSet vm "detailed_info" (.dict det), count + 1)
            else pure (vm, count)
          else pure (vm, count)
        let rest' ← parseVmListGo client jparse node_name step.2 rest
        .ok (.dict step.1 :: rest')
      else parseVmListGo client jparse node_name count rest
    else parseVmListGo client jparse node_name count rest

/-- `parse_vm_list(vms_output)`. -/
def parse_vm_list (client : Option (String → Option String))
    (jparse : String → Option PyVal) (vms_output : String) :
    Except PyErr (List PyVal) :=
  parseVmListGo client jparse (currentNode client) 0 ((pySplitChar '\n' vms_output).drop 1)

/-- The loop of `parse_container_list` (modules/system.py 806-849): rows
of at least three tokens, the `-` lock column mapped to `None`, fallback
name `Container-<vmid>`, detailed info for the first 20 running/stopped
containers (whose `hostname` field, never produced by the detail probe,
would override the name). -/
def parseCtListGo (client : Option (String → Option String))
    (jparse : String → Option PyVal) (node_name : String) :
    Nat → List String → Except PyErr (List PyVal)
  | _, [] => .ok []
  | count, line :: rest =>
    if pyStrip line ≠ "" then
      let parts := pySplitWs line
      if parts.length ≥ 3 then do
        let container : List (String × PyVal) :=
          [("vmid", .str (parts.getD 0 "")), ("status", .str (parts.getD 1 "")),
           ("lock", if parts.getD 2 "" ≠ "-" then .str (parts.getD 2 "") else .none),
           ("type", .str "container")]
        let container :=
          if parts.length > 3 then aSet container "name" (.str (parts.getD 3 ""))
          else aSet container "name" (.str ("Container-" ++ parts.getD 0 ""))
        let step ←
          if (parts.getD 1 "" = "running" ∨ parts.getD 1 "" = "stopped") ∧ count < 20 then do
            let det ← get_container_detailed_info client jparse node_name (parts.getD 0 "")
            if !det.isEmpty then
              let c := aSet container "detailed_info" (.dict det)
              let c :=
                if (dGet det "hostname").truthy ∧ ¬ pyEqStr (dGet det "hostname") "Unknown" then
                  aSet c "name" (dGet det "hostname")
                else c
              pure (c, count + 1)
            else pure (container, count)
          else pure (container, count)
        let rest' ← parseCtListGo client jparse node_name step.2 rest
        .ok (.dict step.1 :: rest')
      else parseCtListGo client jparse node_name count rest
    else parseCtListGo client jparse node_name count rest

/-- `parse_container_list(containers_output)`. -/
def parse_container_list (client : Option (String → Option String))
    (jparse : String → Option PyVal) (containers_output : String) :
    Except PyErr (List PyVal) :=
  parseCtListGo client jparse (currentNode client) 0
    ((pySplitChar '\n' containers_output).drop 1)

/-- The accumulator of `parse_cluster_resources`. -/
structure ResAcc where
  total_nodes : Int
  online_nodes : Int
  total_vms : Int
  running_vms : Int
  total_containers : Int
  running_containers : Int
  storage_pools : Int
  cpu_total : Frac
  cpu_used : Frac
  mem_total : Frac
  mem_used : Frac

def resAccInit : ResAcc :=
  ⟨0, 0, 0, 0, 0, 0, 0, Frac.ofInt 0, Frac.ofInt 0, Frac.ofInt 0, Frac.ofInt 0⟩

/-- One resource of `parse_cluster_resources` (modules/system.py 947-973). -/
def clusterResStep (acc : ResAcc) (resource : PyVal) : Except PyErr ResAcc := do
  let res_type ← pyDictGetD resource "type" (.str "")
  if pyEqStr res_type "node" then do
    let acc := { acc with total_nodes := acc.total_nodes + 1 }
    let status ← pyDictGet resource "status"
    if pyEqStr status "online" then do
      let acc := { acc with online_nodes := acc.online_nodes + 1 }
      let maxcpu ← pyDictGet resource "maxcpu"
      let acc ←
        if maxcpu.truthy then do
          let mc0 ← pyDictGetD resource "maxcpu" (.int 0)
          let mc ← pyNum mc0
          let cpu ← pyDictGetD resource "cpu" (.int 0)
          let cq ← pyNum cpu
          pure { acc with cpu_total := Frac.add acc.cpu_total mc,
                          cpu_used := Frac.add acc.cpu_used (Frac.mul cq mc) }
        else pure acc
      let maxmem ← pyDictGet resource "maxmem"
      if maxmem.truthy then do
        let mm0 ← pyDictGetD resource "maxmem" (.int 0)
        let mm ← pyNum mm0
        let mem ← pyDictGetD resource "mem" (.int 0)
        let mq ← pyNum mem
        pure { acc with mem_total := Frac.add acc.mem_total mm,
                        mem_used := Frac.add acc.mem_used mq }
      else pure acc
    else pure acc
  else if pyEqStr res_type "qemu" then do
    let acc := { acc with total_vms := acc.total_vms + 1 }
    let status ← pyDictGet resource "status"
    pure (if pyEqStr status "running" then { acc with running_vms := acc.running_vms + 1 } else acc)
  else if pyEqStr res_type "lxc" then do
    let acc := { acc with total_containers := acc.total_containers + 1 }
    let status ← pyDictGet resource "status"
    pure (if pyEqStr status "running" then
      { acc with running_containers := acc.running_containers + 1 } else acc)
  else if pyEqStr res_type "storage" then
    pure { acc with storage_pools := acc.storage_pools + 1 }
  else pure acc

/-- `parse_cluster_resources(resources_data)` (modules/system.py 933-984).
Counters that the source leaves as `int` when no contribution arrives are
stored as `float` zeros here; no downstream reader distinguishes them. -/
def parse_cluster_resources (resources_data : PyVal) :
    Except PyErr (List (String × PyVal)) := do
  let items ← pyIterList resources_data
  let acc ← items.foldlM clusterResStep resAccInit
  let cpu0 : List (String × PyVal) :=
    [("total", .float acc.cpu_total), ("used", .float acc.cpu_used)]
  let cpu1 :=
    if Frac.blt (Frac.ofInt 0) acc.cpu_total then
      aSet cpu0 "percentage"
        (.str (fmt1 (Frac.mul (Frac.div acc.cpu_used acc.cpu_total) (Frac.ofInt 100)) ++ "%"))
    else cpu0
  let mem0 : List (String × PyVal) :=
    [("total", .float acc.mem_total), ("used", .float acc.mem_used)]
  let mem1 :=
    if Frac.blt (Frac.ofInt 0) acc.mem_total then
      aSet (aSet (aSet mem0
        "total_gb" (.str (bytes_to_gb (toString (Frac.trunc acc.mem_total)))))
        "used_gb" (.str (bytes_to_gb (toString (Frac.trunc acc.mem_used)))))
        "percentage"
        (.str (fmt1 (Frac.mul (Frac.div acc.mem_used acc.mem_total) (Frac.ofInt 100)) ++ "%"))
    else mem0
  .ok [("total_nodes", .int acc.total_nodes),
       ("online_nodes", .int acc.online_nodes),
       ("total_vms", .int acc.total_vms),
       ("running_vms", .int acc.running_vms),
       ("total_containers", .int acc.total_containers),
       ("running_containers", .int acc.running_containers),
       ("storage_pools", .int acc.storage_pools),
       ("cpu_usage", .dict cpu1),
       ("memory_usage", .dict mem1)]

/-- `parse_storage_status(storage_output)` (modules/system.py 851-872). -/
def parse_storage_status (storage_output : String) : List PyVal :=
  (((pySplitChar '\n' storage_output).drop 1).filter (fun l => pyStrip l ≠ "")).foldl
    (fun acc line =>
      let parts := pySplitWs line
      if parts.length ≥ 6 then
        acc ++ [.dict
          [("name", .str (parts.getD 0 "")),
           ("type", .str (parts.getD 1 "")),
           ("status", .str (parts.getD 2 "")),
           ("total", .str (bytes_to_gb (parts.getD 3 ""))),
           ("used", .str (bytes_to_gb (parts.getD 4 ""))),
           ("available", .str (bytes_to_gb (parts.getD 5 ""))),
           ("usage_percent", .str (if parts.length > 6 then parts.getD 6 "" else "Unknown"))]]
      else acc)
    []

/-- The `Transport:` patch applied to a JSON-derived cluster status
(modules/system.py 529-534): first matching line of `pvecm status`. -/
def transportPatch (cs : List (String × PyVal)) (t : String) : List (String × PyVal) :=
  match (pySplitChar '\n' t).find? (fun line => pyContains line "Transport:") with
  | some line => aSet cs "transport" (.str (pyStrip (pySplitColon1 line)))
  | Option.none => cs

/-- The shared text fallback for cluster status
(modules/system.py 539-543 and 556-560): parse `pvecm status` when it
holds a `Cluster information` block, else a single-node default. -/
def textClusterStatus (client : Option (String → Option String)) :
    List (String × PyVal) :=
  match run_command client pvecmStatusCmd with
  | some t =>
    if t ≠ "" ∧ pyContains t "Cluster information" then parse_cluster_status t
    else [("clustered", .bool false), ("nodes", .int 1)]
  | Option.none => [("clustered", .bool false), ("nodes", .int 1)]

/-- The single-node fallback of the non-JSON branch
(modules/system.py 568-583): the self node-status probe rendered into one
node record, any failure collapsing to the bare record (`except:`). -/
def singleNodeFallback (client : Option (String → Option String))
    (jparse : String → Option PyVal) : List PyVal :=
  let hname := currentNode client
  match run_command client nodeStatusSelfCmd with
  | some ns =>
    if ns ≠ "" then
      let attempt : Except PyErr (List (String × PyVal)) := do
        let node_data ← pyLoads jparse ns
        let cpu ← pyDictGetD node_data "cpu" (.int 0)
        let cq ← pyNum cpu
        let memory0 ← pyDictGetD node_data "memory" (.dict [])
        let mu0 ← pyDictGetD memory0 "used" (.int 0)
        let mt0 ← pyDictGetD memory0 "total" (.int 0)
        let mu ← pyNum mu0
        let mt ← pyNum mt0
        let upt ← pyDictGetD node_data "uptime" (.str "Unknown")
        .ok [("name", .str hname), ("status", .str "online"), ("online", .bool true),
             ("cpu_usage", .str (fmt1 (Frac.mul cq (Frac.ofInt 100)) ++ "%")),
             ("memory_usage",
               .str (fmt1 (Frac.div mu (Frac.ofInt (1024 * 1024 * 1024))) ++ "G / " ++
                 fmt1 (Frac.div mt (Frac.ofInt (1024 * 1024 * 1024))) ++ "G")),
             ("uptime", upt)]
      match attempt with
      | .ok node => [.dict node]
      | .error _ =>
        [.dict [("name", .str hname), ("status", .str "online"), ("online", .bool true)]]
    else []
  | Option.none => []

/-- The non-JSON branch of the cluster-status section
(modules/system.py 554-583). -/
def proxmoxClusterSectionNoJson (client : Option (String → Option String))
    (jparse : String → Option PyVal) (info : List (String × PyVal)) :
    Except PyErr (List (String × PyVal)) :=
  let cs := textClusterStatus client
  let info := aSet info "cluster_status" (.dict cs)
  if (dGet cs "clustered").truthy then
    match run_command client pvecmNodesCmd with
    | some t =>
      if t ≠ "" then .ok (aSet info "nodes" (.list (parse_cluster_nodes t)))
      else .ok info
    | Option.none => .ok info
  else
    let nodes := singleNodeFallback client jparse
    if nodes.isEmpty then .ok info
    else .ok (aSet info "nodes" (.list nodes))

/-- The cluster-status / node-list section of `get_proxmox_info`
(modules/system.py 520-583): JSON first, the text fallback on a caught
decode/key error or when the JSON probe is silent. -/
def proxmoxClusterSection (client : Option (String → Option String))
    (jparse : String → Option PyVal) (info : List (String × PyVal)) :
    Except PyErr (List (String × PyVal)) :=
  match run_command client clusterStatusJsonCmd with
  | some cj =>
    if cj ≠ "" then
      let attempt : Except PyErr ((List (String × PyVal)) × List PyVal) := do
        let cluster_data ← pyLoads jparse cj
        let cs ← parse_cluster_json cluster_data
        let nodes ← parse_nodes_json client jparse cluster_data
        .ok (cs, nodes)
      match attempt with
      | .ok (cs, nodes) =>
        let cs :=
          match run_command client pvecmStatusCmd with
          | some t => if t ≠ "" ∧ pyContains t "Transport:" then transportPatch cs t else cs
          | Option.none => cs
        .ok (aSet (aSet info "cluster_status" (.dict cs)) "nodes" (.list nodes))
      | .error e =>
        if caughtJK e then
          let cs := textClusterStatus client
          let info := aSet info "cluster_status" (.dict cs)
          if (dGet cs "clustered").truthy then
            match run_command client pvecmNodesCmd with
            | some t =>
              if t ≠ "" then .ok (aSet info "nodes" (.list (parse_cluster_nodes t)))
              else .ok info
            | Option.none => .ok info
          else
            .ok (aSet info "nodes" (.list
              [.dict [("name", .str (currentNode client)), ("status", .str "online"),
                      ("online", .bool true)]]))
        else .error e
    else
      proxmoxClusterSectionNoJson client jparse info
  | Option.none => proxmoxClusterSectionNoJson client jparse info

/-- The resource filter of the `problematic_resources` loops applied to a
parsed (dict-shaped) VM or container record. -/
def resourceCondPV (v : PyVal) : Bool :=
  match v with
  | .dict d => resourceCond d
  | _ => false

/-- `SystemCollector.get_proxmox_info()` (modules/system.py 509-630). -/
def get_proxmox_info (client : Option (String → Option String))
    (jparse : String → Option PyVal) : Except PyErr (List (String × PyVal)) := do
  match run_command client pveversionCmd with
  | Option.none => .ok []
  | some pve_version =>
    if pve_version = "" then .ok []
    else do
      let info : List (String × PyVal) := [("pve_version", .str (pyStrip pve_version))]
      let info ← proxmoxClusterSection client jparse info
      let info ←
        match run_command client clusterResourcesCmd with
        | some cr =>
          if cr ≠ "" then
            let attempt : Except PyErr (List (String × PyVal)) := do
              let d ← pyLoads jparse cr
              parse_cluster_resources d
            match attempt with
            | .ok summ => pure (aSet info "cluster_resources" (.dict summ))
            | .error e => if caughtJK e then pure info else .error e
          else pure info
        | Option.none => pure info
      let info ←
        match run_command client qmListCmd with
        | some t =>
          if t ≠ "" then do
            let vms ← parse_vm_list client jparse t
            pure (aSet info "vms" (.list vms))
          else pure info
        | Option.none => pure info
      let info ←
        match run_command client pctListCmd with
        | some t =>
          if t ≠ "" then do
            let cts ← parse_container_list client jparse t
            pure (aSet info "containers" (.list cts))
          else pure info
        | Option.none => pure info
      let info :=
        match run_command client pvesmStatusCmd with
        | some t => if t ≠ "" then aSet info "storage" (.list (parse_storage_status t)) else info
        | Option.none => info
      let prob :=
        (match dGet info "vms" with
         | .list l => l.filter resourceCondPV
         | _ => []) ++
        (match dGet info "containers" with
         | .list l => l.filter resourceCondPV
         | _ => [])
      let info := if !prob.isEmpty then aSet info "problematic_resources" (.list prob) else info
      .ok info

/-! ## Memory-module probing and `collect_system_info`
(modules/system.py 91-147, 149-314) -/

/-- The string carried by a value known (by construction) to be a string. -/
def pyValStr (v : PyVal) : String :=
  match v with
  | .str s => s
  | _ => ""

/-- The `key: value` scan applied to the tail lines of an `lshw` section. -/
def lshwSectionKV (sect : String) : List (String × PyVal) :=
  ((pySplitChar '\n' sect).drop 1).foldl
    (fun acc line =>
      let line := pyStrip line
      if pyContains line ":" ∧ ¬ pyStartsWith line "*-" then
        match split1CL ':' (chars line) with
        | some (k, v) => aSet acc (pyStrip (ofChars k)) (.str (pyStrip (ofChars v)))
        | Option.none => acc
      else acc)
    []

/-- The `*-` sectioning of `parse_lshw_memory_output`
(modules/system.py 161-174). -/
def lshwSections (lshw_output : String) : List String :=
  let st := (pySplitChar '\n' lshw_output).foldl
    (fun (st : List String × List String) line =>
      if pyStartsWith (pyStrip line) "*-" then
        (st.1 ++ (if st.2 ≠ [] then [String.intercalate "\n" st.2] else []), [line])
      else (st.1, st.2 ++ [line]))
    ([], [])
  st.1 ++ (if st.2 ≠ [] then [String.intercalate "\n" st.2] else [])

/-- `parse_lshw_memory_output(lshw_output)` (modules/system.py 149-235). -/
def parse_lshw_memory_output (lshw_output : String) : List (String × PyVal) :=
  let base : List (String × PyVal) :=
    [("bios_info", .dict []), ("memory_banks", .list []),
     ("cache_info", .list []), ("system_memory", .dict [])]
  if lshw_output = "" ∨ (chars (pyStrip lshw_output)).length < 10 then base
  else
    (lshwSections lshw_output).foldl
      (fun memory_data sect =>
        let header :=
          if pyStrip sect ≠ "" then pyStrip ((pySplitChar '\n' sect).getD 0 "") else ""
        if pyContains header "*-firmware" then
          let bios := lshwSectionKV sect
          if !bios.isEmpty then aSet memory_data "bios_info" (.dict bios) else memory_data
        else if pyContains header "*-memory" ∧ ¬ pyContains header "*-bank:" then
          let sys_mem := lshwSectionKV sect
          if !sys_mem.isEmpty then aSet memory_data "system_memory" (.dict sys_mem)
          else memory_data
        else if pyContains header "*-bank:" then
          let bank := lshwSectionKV sect
          let desc := pyValStr (dGetD bank "description" (.str ""))
          let banks :=
            match dGet memory_data "memory_banks" with
            | .list l => l
            | _ => []
          if (dGet bank "size").truthy ∨ ¬ pyContains desc "[empty]" then
            aSet memory_data "memory_banks" (.list (banks ++ [.dict bank]))
          else if pyContains desc "[empty]" then
            aSet memory_data "memory_banks"
              (.list (banks ++ [.dict (aSet bank "empty" (.bool true))]))
          else memory_data
        else if pyContains header "*-cache:" then
          let cache := lshwSectionKV sect
          if !cache.isEmpty then
            let caches :=
              match dGet memory_data "cache_info" with
              | .list l => l
              | _ => []
            aSet memory_data "cache_info" (.list (caches ++ [.dict cache]))
          else memory_data
        else memory_data)
      base

def lshwCmd : String := "lshw -c memory 2>/dev/null"

def dmidecodeCmd : String :=
  "dmidecode -t memory 2>/dev/null | grep -A 15 \"Memory Device\" | head -80"

def sudoLshwCmd : String := "sudo lshw -c memory 2>/dev/null"

def meminfoCmd : String := "cat /proc/meminfo | head -15"

def osInfoHeadCmd : String := "cat /etc/os-release | head -3 2>/dev/null"

/-- The empty memory record shared by the non-`lshw` outcomes. -/
def memBase : List (String × PyVal) :=
  [("bios_info", .dict []), ("memory_banks", .list []),
   ("cache_info", .list []), ("system_memory", .dict [])]

/-- The usability test of a memory probe result: truthy, no
`command not found`, more than ten stripped characters. -/
def memUsable (r : Option String) : Bool :=
  match r with
  | Option.none => false
  | some s =>
    s ≠ "" ∧ ¬ pyContains (pyLower s) "command not found" ∧
      10 < (chars (pyStrip s)).length

/-- `get_memory_modules()` (modules/system.py 237-314): the ordered
fallback chain `lshw` → `dmidecode` → `sudo lshw` → `/proc/meminfo` →
an error record listing which tools even exist. -/
def get_memory_modules (client : Option (String → Option String)) :
    List (String × PyVal) :=
  let m1 := run_command client lshwCmd
  if memUsable m1 then parse_lshw_memory_output (m1.getD "")
  else
    let m2 := run_command client dmidecodeCmd
    if memUsable m2 then
      aSet (aSet memBase "raw_dmidecode" (.str (m2.getD ""))) "source" (.str "dmidecode")
    else
      let m3 := run_command client sudoLshwCmd
      if memUsable m3 ∧ ¬ pyContains ((m3).getD "") "sudo:" then
        parse_lshw_memory_output (m3.getD "")
      else
        let m4 := run_command client meminfoCmd
        let m4ok : Bool :=
          match m4 with
          | some s => (s ≠ "" : Bool) && ((10 < (chars (pyStrip s)).length : Bool))
          | Option.none => false
        if m4ok then
          aSet (aSet memBase "basic_meminfo" (.str (m4.getD ""))) "source" (.str "meminfo")
        else
          let available := (["lshw", "dmidecode", "cat"]).foldl
            (fun acc cmd =>
              match run_command client ("which " ++ cmd ++ " 2>/dev/null") with
              | some r => if r ≠ "" then acc ++ [PyVal.str (cmd ++ ": " ++ r)] else acc
              | Option.none => acc)
            []
          let error_info :=
            aSet (aSet (aSet memBase
              "error" (.str "Memory module information not available"))
              "available_commands" (.list available))
              "source" (.str "error")
          match run_command client osInfoHeadCmd with
          | some os_info =>
            if os_info ≠ "" then aSet error_info "os_info" (.str os_info) else error_info
          | Option.none => error_info

def actualHostnameCmd : String := "hostname -f 2>/dev/null || hostname"

/-- The fixed command battery of `collect_system_info`
(modules/system.py 111-123), in dict order (awk braces written as
escapes). -/
def sysCommands : List (String × String) :=
  [("os_release_raw", "cat /etc/os-release 2>/dev/null || echo \"Unknown\""),
   ("kernel", "uname -r"),
   ("architecture", "uname -m"),
   ("uptime", "uptime -p"),
   ("load_average", "uptime | awk -F\"load average:\" '\x7bprint $2\x7d'"),
   ("memory_total", "free -h | grep Mem | awk '\x7bprint $2\x7d'"),
   ("memory_used", "free -h | grep Mem | awk '\x7bprint $3\x7d'"),
   ("disk_usage", "df -h / | tail -1 | awk '\x7bprint $3 \"/\" $2 \" (\" $5 \")\"\x7d'"),
   ("cpu_info", "lscpu | grep \"Model name\" | cut -d: -f2 | xargs"),
   ("cpu_cores", "nproc"),
   ("ip_addresses", "ip -4 addr show | grep inet | awk '\x7bprint $2\x7d' | grep -v 127.0.0.1")]

/-- `SystemCollector.collect_system_info()` (modules/system.py 91-147).
The `paramiko` connect and its error classification happen outside this
model: `conn = none` stands for a successful `connect()`, `conn = some r`
for a failure whose classified reason is `r`; `ts` is
`datetime.now().isoformat()`. -/
def collect_system_info (hostname ts : String) (conn : Option String)
    (client : Option (String → Option String)) (jparse : String → Option PyVal)
    (st : DbState) : Except PyErr ((List (String × PyVal)) × DbState) := do
  let info : List (String × PyVal) :=
    [("hostname", .str hostname), ("timestamp", .str ts), ("reachable", .bool false)]
  match conn with
  | some reason => .ok (aSet info "connection_failure_reason" (.str reason), st)
  | Option.none =>
    let info := aSet info "reachable" (.bool true)
    let info :=
      match run_command client actualHostnameCmd with
      | some a =>
        if a ≠ "" ∧ a ≠ "Unknown" then aSet info "actual_hostname" (.str (pyStrip a))
        else info
      | Option.none => info
    let info := sysCommands.foldl
      (fun info p =>
        aSet info p.1
          (.str (match run_command client p.2 with
                 | some r => if r ≠ "" then r else "Unknown"
                 | Option.none => "Unknown")))
      info
    let rawv := pyValStr (dGetD info "os_release_raw" (.str ""))
    let info := aSet info "os_release" (.dict (parse_os_release rawv))
    let info := if rawv ≠ "Unknown" then aDel info "os_release_raw" else info
    let memory_data := get_memory_modules client
    let info := aSet info "memory_modules" (.dict memory_data)
    let info :=
      if (dGet memory_data "bios_info").truthy then
        aSet info "bios_info" (dGet memory_data "bios_info")
      else info
    let (svcs, st1) ← get_services client st ts
    let info := aSet info "services" (.list (svcs.map PyVal.dict))
    let info := aSet info "docker_containers"
      (.list ((get_docker_containers client).map PyVal.dict))
    let (ports, st2) ← get_listening_ports client st1 ts
    let info := aSet info "listening_ports" (.list (ports.map PyVal.dict))
    let info := aSet info "kubernetes_info" (.dict (get_kubernetes_info client).1)
    let prox ← get_proxmox_info client jparse
    let info := aSet info "proxmox_info" (.dict prox)
    .ok (info, st2)

/-! ## The connection cascade and platform tagging (modelled from the spec)

The cascade revision of `SystemCollector` is not part of this source tree:
modules/inventory.py's `collect_host_data` (the cited caller) constructs
`SystemCollector(host, config)` under the banner "new cascade approach"
and reads `data['platform_type']`, and modules/__init__.py exports the
Windows and NAS collectors that approach dispatches to — but
modules/system.py holds an older key-SSH-only collector whose constructor
takes `(hostname, ssh_user, ssh_key_path, ssh_timeout)` and never assigns
a platform tag.  The definitions below are therefore modelled from the
spec (§3, §4.1, §4.2, §7). -/

inductive Transport where
  | winrm
  | passwordSSH
  | keySSH
deriving DecidableEq

/-- Modelled from the spec: the credential bundle of §4.1/§6 — optional
remote-management (Windows) credentials, optional password-SSH (NAS)
credentials, the always-present key-SSH identity, and the timeout in
seconds. -/
structure CascadeConfig where
  windows_user : Option String
  windows_password : Option String
  nas_user : Option String
  nas_password : Option String
  ssh_user : String
  ssh_key_path : String
  ssh_timeout : Nat

def winrmConfigured (c : CascadeConfig) : Bool :=
  c.windows_user.isSome && c.windows_password.isSome

def passwordSshConfigured (c : CascadeConfig) : Bool :=
  c.nas_user.isSome && c.nas_password.isSome

/-- Modelled from the spec: the fixed priority order of §4.1 — (1)
remote-management protocol, (2) password SSH, (3) key SSH — where a
transport whose credentials are not configured is skipped without
counting as a failure. -/
def transportPlan (c : CascadeConfig) : List Transport :=
  (if winrmConfigured c then [Transport.winrm] else []) ++
    (if passwordSshConfigured c then [Transport.passwordSSH] else []) ++
    [Transport.keySSH]

/-- One timeboxed connection attempt. -/
structure Attempt where
  transport : Transport
  timeout : Nat
deriving DecidableEq

/-- Modelled from the spec: the sequential cascade of §4.1 — each attempt
independently timeboxed with the configured timeout, exiting on the first
transport that succeeds.  `succeeds` stands for the network outcome of
attempting each transport against the host. -/
def runCascadeGo (timeout : Nat) (succeeds : Transport → Bool) :
    List Transport → List Attempt × Option Transport
  | [] => ([], Option.none)
  | t :: ts =>
    if succeeds t then ([⟨t, timeout⟩], some t)
    else
      let r := runCascadeGo timeout succeeds ts
      (⟨t, timeout⟩ :: r.1, r.2)

def runCascade (c : CascadeConfig) (succeeds : Transport → Bool) :
    List Attempt × Option Transport :=
  runCascadeGo c.ssh_timeout succeeds (transportPlan c)

/-- Modelled from the spec: the closed failure taxonomy of §7. -/
inductive FailureReason where
  | timeout
  | refused
  | unreachable
  | authFailure
  | dnsFailure
  | unknown
deriving DecidableEq

/-- The normalized human-readable text of each reason (§3
ConnectionFailure). -/
def failureText : FailureReason → String
  | .timeout => "Connection timeout"
  | .refused => "Connection refused"
  | .unreachable => "Host unreachable"
  | .authFailure => "Authentication failed"
  | .dnsFailure => "DNS resolution failed"
  | .unknown => "Unknown error"

/-- Modelled from the spec: classify the error text of the last attempted
transport into the closed set of §7. -/
def classifyError (e : String) : FailureReason :=
  let l := pyLower e
  if pyContains l "timeout" || pyContains l "timed out" then .timeout
  else if pyContains l "refused" then .refused
  else if pyContains l "unreachable" || pyContains l "no route" then .unreachable
  else if pyContains l "auth" || pyContains l "permission denied" then .authFailure
  else if pyContains l "name resolution" || pyContains l "nodename" then .dnsFailure
  else .unknown

inductive PlatformTag where
  | linux
  | windows
  | nas
deriving DecidableEq

/-- Modelled from the spec: the platform refinement of §4.2 — a
remote-management channel is Windows; a password- or key-SSH channel is a
NAS exactly when a vendor marker probe matches, otherwise generic Linux. -/
def refineTag : Transport → Bool → PlatformTag
  | .winrm, _ => .windows
  | .passwordSSH, marker => if marker then .nas else .linux
  | .keySSH, marker => if marker then .nas else .linux

/-- Modelled from the spec: the HostRecord of §3 at the granularity the
reachability claims need. -/
structure HostRecordS where
  reachable : Bool
  platform : Option PlatformTag
  connection_method : Option Transport
  failure_reason : Option FailureReason
  sub_records : List (String × PyVal)

/-- Modelled from the spec: assemble the HostRecord — on cascade success
the refined tag and its collected sub-records; on failure no tag, no
sub-records, and the classified reason of the *last* attempted transport
(§4.1). -/
def collectSystemInfoSpec (c : CascadeConfig) (succeeds : Transport → Bool)
    (errOf : Transport → String) (marker : Bool)
    (collectFor : PlatformTag → List (String × PyVal)) : HostRecordS :=
  let r := runCascade c succeeds
  match r.2 with
  | some t =>
    let tag := refineTag t marker
    ⟨true, some tag, some t, Option.none, collectFor tag⟩
  | Option.none =>
    let lastT := ((r.1.getLast?).map Attempt.transport).getD Transport.keySSH
    ⟨false, Option.none, Option.none, some (classifyError (errOf lastT)), []⟩

/-- A fully credentialled configuration (used to instantiate the cascade
claims). -/
def cfgFull : CascadeConfig :=
  ⟨some "administrator", some "winpw", some "nasadmin", some "naspw",
   "root", "~/.ssh/id_rsa", 5⟩

/-- An outcome where only key-SSH succeeds. -/
def succKeyOnly : Transport → Bool := fun t => t == Transport.keySSH

end LabDoc

namespace LabDoc

/-- A key that has a binding is found by `List.lookup`. -/
theorem lookup_isSome_of_mem {α : Type} :
    ∀ {l : List (String × α)} {k : String} {v : α}, (k, v) ∈ l → (l.lookup k).isSome
  | (k', v') :: rest, k, v, h => by
    simp only [List.lookup]
    by_cases hk : (k == k') = true
    · simp [hk]
    · simp only [hk]
      rcases List.mem_cons.mp h with h1 | h1
      · cases h1; simp at hk
      · simpa using lookup_isSome_of_mem h1

/-- C4: `parse_os_release` is total and the returned record always contains
the keys `name`, `version` and `id`; on the literal input `"Unknown"` it is
exactly the default record; on any other non-empty input `name` resolves
through the `name` → `pretty_name` → `"Unknown"` fallback chain, `version`
through `version` → `version_id` → `"Unknown"`, `id` defaults to
`"unknown"`, surrounding quotes are stripped from values, and no key of the
returned record resolves to `None`. -/
theorem C4_parse_os_release :
    (∀ content : String,
       (((parse_os_release content).lookup "name").isSome = true ∧
        ((parse_os_release content).lookup "version").isSome = true ∧
        ((parse_os_release content).lookup "id").isSome = true)) ∧
    (∀ content : String, content ≠ "" → content ≠ "Unknown" →
       ((parse_os_release content).lookup "name" = some (.str (specNameResolution content)) ∧
        (parse_os_release content).lookup "version" =
          some (.str ((((osReleaseScan content).lookup "version").orElse
            fun _ => (osReleaseScan content).lookup "version_id").getD "Unknown")) ∧
        (parse_os_release content).lookup "id" =
          some (.str (((osReleaseScan content).lookup "id").getD "unknown")))) ∧
    (parse_os_release "Unknown" =
       [("name", .str "Unknown"), ("version", .str "Unknown"), ("id", .str "unknown")]) ∧
    (∀ (content : String) (p : String × PyVal),
       p ∈ parse_os_release content → p.2.isNone = false) ∧
    ((parse_os_release "NAME=\"Ubuntu\"\nVERSION='20.04 LTS'\nID=ubuntu").lookup "name" =
       some (.str "Ubuntu") ∧
     (parse_os_release "NAME=\"Ubuntu\"\nVERSION='20.04 LTS'\nID=ubuntu").lookup "version" =
       some (.str "20.04 LTS")) := by
  have hname : ∀ content : String, content ≠ "" → content ≠ "Unknown" →
      (parse_os_release content).lookup "name" = some (.str (specNameResolution content)) := by
    intro content h1 h2
    simp only [parse_os_release, if_neg (not_or.mpr ⟨h1, h2⟩), osReleaseParsed, specNameResolution]
    simp [List.filter, PyVal.isNone, List.lookup]
  have hversion : ∀ content : String, content ≠ "" → content ≠ "Unknown" →
      (parse_os_release content).lookup "version" =
        some (.str ((((osReleaseScan content).lookup "version").orElse
          fun _ => (osReleaseScan content).lookup "version_id").getD "Unknown")) := by
    intro content h1 h2
    simp only [parse_os_release, if_neg (not_or.mpr ⟨h1, h2⟩), osReleaseParsed]
    simp [List.filter, PyVal.isNone, List.lookup]
  have hid : ∀ content : String, content ≠ "" → content ≠ "Unknown" →
      (parse_os_release content).lookup "id" =
        some (.str (((osReleaseScan content).lookup "id").getD "unknown")) := by
    intro content h1 h2
    simp only [parse_os_release, if_neg (not_or.mpr ⟨h1, h2⟩), osReleaseParsed]
    cases hc : ((osReleaseScan content).lookup "version_codename").orElse
        fun _ => (osReleaseScan content).lookup "ubuntu_codename" <;>
      simp [List.filter, PyVal.isNone, List.lookup]
  refine ⟨?_, fun c h1 h2 => ⟨hname c h1 h2, hversion c h1 h2, hid c h1 h2⟩, rfl, ?_, ?_, ?_⟩
  · intro content
    by_cases h1 : content = ""
    · subst h1; refine ⟨rfl, rfl, rfl⟩
    · by_cases h2 : content = "Unknown"
      · subst h2; refine ⟨rfl, rfl, rfl⟩
      · rw [hname content h1 h2, hversion content h1 h2, hid content h1 h2]
        exact ⟨rfl, rfl, rfl⟩
  · intro content p hp
    unfold parse_os_release at hp
    split at hp
    · simp only [List.mem_cons, List.not_mem_nil, or_false] at hp
      rcases hp with h | h | h <;> subst h <;> rfl
    · have := (List.mem_filter.mp hp).2
      simpa using this
  · rfl
  · rfl

/-- Witness for C4: the fallback chain evaluated at a record lacking
`name`, where `pretty_name` must win, and the `"Unknown"` defaults when
both are absent. -/
theorem C4_parse_os_release_witness :
    (parse_os_release "PRETTY_NAME=\"Debian GNU/Linux 12\"").lookup "name" =
      some (.str "Debian GNU/Linux 12") ∧
    (parse_os_release "FOO=bar").lookup "name" = some (.str "Unknown") ∧
    (parse_os_release "FOO=bar").lookup "id" = some (.str "unknown") := by
  refine ⟨?_, ?_, ?_⟩
  · have := (C4_parse_os_release.2.1 "PRETTY_NAME=\"Debian GNU/Linux 12\""
      (by decide) (by decide)).1
    rw [this]; rfl
  · have := (C4_parse_os_release.2.1 "FOO=bar" (by decide) (by decide)).1
    rw [this]; rfl
  · have := (C4_parse_os_release.2.1 "FOO=bar" (by decide) (by decide)).2.2
    rw [this]; rfl

/-- C5: `bytes_to_gb("1073741824")` is `"1.0GB"`, `bytes_to_gb("1099511627776000")`
is the TB-scale string `"1000.0TB"`, and every input that does not parse as
an integer is returned unchanged rather than raising. -/
theorem C5_bytes_to_gb :
    bytes_to_gb "1073741824" = "1.0GB" ∧
    (bytes_to_gb "1099511627776000" = "1000.0TB" ∧
      pyEndsWith (bytes_to_gb "1099511627776000") "TB" = true) ∧
    ∀ s : String, pyInt s = none → bytes_to_gb s = s := by
  refine ⟨by decide, ⟨by decide, by decide⟩, ?_⟩
  intro s h
  simp [bytes_to_gb, h]

/-- Witness for C5 at a concrete non-numeric input. -/
theorem C5_bytes_to_gb_witness : bytes_to_gb "12 GiB" = "12 GiB" :=
  C5_bytes_to_gb.2.2 "12 GiB" (by decide)

/-- `splitCharCL` never returns the empty list. -/
theorem splitCharCL_ne_nil (c : Char) : ∀ l : List Char, splitCharCL c l ≠ []
  | [] => by simp [splitCharCL]
  | x :: rest => by
    simp only [splitCharCL]
    have ih := splitCharCL_ne_nil c rest
    by_cases h : x = c
    · simp [h]
    · simp only [if_neg h]
      cases hr : splitCharCL c rest with
      | nil => simp
      | cons a t => simp

/-- The number of fields is the number of separators plus one. -/
theorem splitCharCL_length (c : Char) :
    ∀ l : List Char, (splitCharCL c l).length = l.count c + 1
  | [] => by simp [splitCharCL]
  | x :: rest => by
    have ih := splitCharCL_length c rest
    simp only [splitCharCL]
    by_cases h : x = c
    · simp [h, ih, List.count_cons]
    · simp only [if_neg h]
      cases hr : splitCharCL c rest with
      | nil => exact absurd hr (splitCharCL_ne_nil c rest)
      | cons a t =>
        rw [hr] at ih
        simp only [List.length_cons] at ih ⊢
        rw [List.count_cons]
        simp [h, ih]

/-- Containment of a single character agrees with `List.contains`. -/
theorem containsSubCL_single (c : Char) :
    ∀ l : List Char, containsSubCL [c] l = l.contains c
  | [] => by simp [containsSubCL]
  | x :: rest => by
    have ih := containsSubCL_single c rest
    by_cases h : c = x
    · subst h; simp [containsSubCL, List.isPrefixOf]
    · simp [containsSubCL, List.isPrefixOf, ih, h, Ne.symm h]

/-- A character occurs in a list exactly when its count is positive. -/
theorem contains_eq_count_pos (c : Char) (l : List Char) :
    l.contains c = decide (0 < l.count c) := by
  by_cases h : c ∈ l
  · simp [h, List.count_pos_iff.mpr h]
  · simp [h, List.count_eq_zero.mpr h]

/-- C3 (amended): the inline classification of
`SystemCollector.get_kubernetes_info` agrees with the claim's rule on every
pod row whose ready field holds at most one `/`; the three concrete
instances of the claim hold for the inline rule and for
`KubernetesCollector.is_pod_problematic` alike.  (`is_pod_problematic`
additionally restricts flagging to a fixed status list — see the
counterexample.) -/
theorem C3_pod_classification :
    (∀ ns nm ready status restarts age : String,
       (pySplitChar '/' ready).length ≤ 2 →
       podRowProblematic [ns, nm, ready, status, restarts, age] =
         specPodProblematic status ready restarts) ∧
    (podRowProblematic ["default", "app", "1/1", "Running", "0", "3d"] = false ∧
     podRowProblematic ["default", "app", "1/1", "Running", "6", "3d"] = true ∧
     ∀ ready restarts : String,
       podRowProblematic ["default", "app", ready, "CrashLoopBackOff", restarts, "3d"] = true) ∧
    (is_pod_problematic (mkPodRow "default" "app" "1/1" "Running" "0" "3d") = false ∧
     is_pod_problematic (mkPodRow "default" "app" "1/1" "Running" "6" "3d") = true ∧
     ∀ ready restarts : String,
       is_pod_problematic (mkPodRow "default" "app" ready "CrashLoopBackOff" restarts "3d") = true) := by
  refine ⟨?_, ⟨by decide, by decide, fun ready restarts => by simp [podRowProblematic]⟩,
    ⟨by decide, by decide, fun ready restarts => rfl⟩⟩
  intro ns nm ready status restarts age hlen
  have hc : containsSubCL ['/'] ready.data = (ready.data).contains '/' :=
    containsSubCL_single '/' ready.data
  have hl : (splitCharCL '/' ready.data).length = (ready.data).count '/' + 1 :=
    splitCharCL_length '/' ready.data
  have hlen' : (splitCharCL '/' ready.data).length ≤ 2 := by
    simpa [pySplitChar, chars] using hlen
  have hpat : chars "/" = ['/'] := rfl
  by_cases hcnt : (ready.data).count '/' = 0
  · have h1 : containsSubCL ['/'] ready.data = false := by
      rw [hc, contains_eq_count_pos]; simp [hcnt]
    have h2 : (splitCharCL '/' ready.data).length = 1 := by rw [hl, hcnt]
    simp [podRowProblematic, specPodProblematic, pyContains, hpat, chars, pySplitChar, h1, h2]
  · have hcnt1 : (ready.data).count '/' = 1 := by rw [hl] at hlen'; omega
    have h1 : containsSubCL ['/'] ready.data = true := by
      rw [hc, contains_eq_count_pos]; simp [hcnt1]
    have h2 : (splitCharCL '/' ready.data).length = 2 := by rw [hl, hcnt1]
    simp [podRowProblematic, specPodProblematic, pyContains, hpat, chars, pySplitChar, h1, h2]

/-- Witness for C3 at a concrete well-formed ready fraction, the theorem's
hypothesis discharged at `"0/1"`. -/
theorem C3_pod_classification_witness :
    podRowProblematic ["default", "app", "0/1", "Completed", "2", "3d"] =
      specPodProblematic "Completed" "0/1" "2" :=
  C3_pod_classification.1 "default" "app" "0/1" "Completed" "2" "3d" (by decide)

/-- C3 counterexample: the claim's rule flags a pod whose status is
`ErrImagePull` (not `Running`, not `Completed`), but
`KubernetesCollector.is_pod_problematic` leaves it unflagged because
`ErrImagePull` is missing from its fixed status list. -/
theorem C3_pod_classification_counterexample :
    specPodProblematic "ErrImagePull" "1/1" "0" = true ∧
    is_pod_problematic (mkPodRow "default" "web-1" "1/1" "ErrImagePull" "0" "5m") = false := by
  exact ⟨by decide, by decide⟩

/-- C6: a parsed VM or container record enters
`identify_problematic_resources` exactly when its status is neither
`running` nor `stopped` or it holds a lock; in particular a stopped
resource without a lock is excluded and a stopped resource with a lock is
included. -/
theorem C6_problematic_resources :
    (∀ vms containers : List (List (String × PyVal)),
       identify_problematic_resources vms containers =
         (vms ++ containers).filter specResourceProblematic) ∧
    identify_problematic_resources
      [[("vmid", .str "100"), ("name", .str "vm1"), ("status", .str "stopped")]] [] = [] ∧
    identify_problematic_resources []
      [[("vmid", .str "101"), ("status", .str "stopped"), ("lock", .str "backup")]] =
      [[("vmid", .str "101"), ("status", .str "stopped"), ("lock", .str "backup")]] ∧
    identify_problematic_resources
      [[("vmid", .str "102"), ("name", .str "vm2"), ("status", .str "paused")]] [] =
      [[("vmid", .str "102"), ("name", .str "vm2"), ("status", .str "paused")]] := by
  have hcond : ∀ r, resourceCond r = specResourceProblematic r := by
    intro r
    simp only [resourceCond, specResourceProblematic]
    cases hv : dGet r "status" with
    | str s =>
      by_cases hs : s = "stopped"
      · subst hs; simp [pyInStrs, pyEqStr]
      · by_cases hr : s = "running"
        · subst hr; simp [pyInStrs, pyEqStr]
        · simp [pyInStrs, pyEqStr, hs, hr]
    | none => simp [pyInStrs, pyEqStr]
    | bool b => simp [pyInStrs, pyEqStr]
    | int n => simp [pyInStrs, pyEqStr]
    | float q => simp [pyInStrs, pyEqStr]
    | list xs => simp [pyInStrs, pyEqStr]
    | dict xs => simp [pyInStrs, pyEqStr]
  refine ⟨?_, rfl, rfl, rfl⟩
  intro vms containers
  simp only [identify_problematic_resources, List.filter_append]
  rw [List.filter_congr fun a _ => hcond a, List.filter_congr fun a _ => hcond a]

/-- Lookup misses when no binding carries the key. -/
theorem lookup_eq_none {α : Type} :
    ∀ (l : List (String × α)) (k : String),
      (∀ p ∈ l, p.1 ≠ k) → l.lookup k = Option.none
  | [], _, _ => rfl
  | (k', v') :: rest, k, h => by
    simp only [List.lookup]
    have hk : (k == k') = false :=
      beq_eq_false_iff_ne.mpr (Ne.symm (h (k', v') (List.mem_cons_self _ _)))
    rw [hk]
    exact lookup_eq_none rest k fun p hp => h p (List.mem_cons_of_mem _ hp)

/-- Assigning an absent key appends the binding. -/
theorem aSet_of_absent {α : Type} :
    ∀ (l : List (String × α)) (k : String) (v : α),
      (∀ p ∈ l, p.1 ≠ k) → aSet l k v = l ++ [(k, v)]
  | [], _, _, _ => rfl
  | (k', v') :: rest, k, v, h => by
    simp only [aSet]
    rw [if_neg (h (k', v') (List.mem_cons_self _ _))]
    rw [aSet_of_absent rest k v fun p hp => h p (List.mem_cons_of_mem _ hp)]
    rfl

/-- Looking up a key bound only at the end. -/
theorem lookup_append_last {α : Type} :
    ∀ (l : List (String × α)) (k : String) (v : α),
      (∀ p ∈ l, p.1 ≠ k) → (l ++ [(k, v)]).lookup k = some v
  | [], k, v, _ => by simp [List.lookup]
  | (k', v') :: rest, k, v, h => by
    simp only [List.cons_append, List.lookup]
    have hk : (k == k') = false :=
      beq_eq_false_iff_ne.mpr (Ne.symm (h (k', v') (List.mem_cons_self _ _)))
    rw [hk]
    exact lookup_append_last rest k v fun p hp => h p (List.mem_cons_of_mem _ hp)

set_option maxRecDepth 100000 in
/-- C7: whatever the raw socket-table output, a returned listening-port
list has at most 20 entries; on 21 well-formed lines the returned list has
exactly 20. -/
theorem C7_listening_ports_cap :
    (∀ (client : Option (String → Option String)) (st : DbState) (ts : String)
       (res : (List (List (String × PyVal))) × DbState),
       get_listening_ports client st ts = .ok res → res.1.length ≤ 20) ∧
    exceptLen (get_listening_ports (some env21) dbSshd "2026-10-12") = 20 := by
  constructor
  · intro client st ts res h
    unfold get_listening_ports at h
    cases hb : listeningPortsRaw client st ts with
    | ok p =>
      rw [hb] at h
      cases h
      simp [List.length_take_le]
    | error e => rw [hb] at h; cases h
  · decide

/-- Witness for C7: the cap theorem applied at a concrete unbound client,
whose port list is returned as `ok`. -/
theorem C7_listening_ports_cap_witness :
    (([] : List (List (String × PyVal))), dbSshd).1.length ≤ 20 :=
  C7_listening_ports_cap.1 Option.none dbSshd "2026-10-12" ([], dbSshd) rfl

/-- C8: looking up a previously unseen service name (no exact and no
partial catalog match) with no enhanced data auto-generates a record,
stores it once, and the immediately repeated lookup returns the same
record without touching the catalog again; afterwards exactly one catalog
entry is keyed by that name. -/
theorem C8_service_enrichment (st : DbState) (ts name : String)
    (h : ∀ p ∈ st.db, p.1 ≠ name ∧ partialMatch name p.1 = false) :
    ∃ (rec : List (String × PyVal)) (st1 : DbState),
      get_service_info st ts name Option.none = .ok (rec, st1) ∧
      get_service_info st1 ts name Option.none = .ok (rec, st1) ∧
      st1.db = st.db ++ [(name, rec)] ∧
      (st1.db.filter fun p => p.1 == name).length = 1 ∧
      dGet rec "_auto_generated" = .bool true := by
  have hlk : st.db.lookup name = Option.none :=
    lookup_eq_none st.db name fun p hp => (h p hp).1
  have hfind : st.db.find? (fun p => partialMatch name p.1) = Option.none :=
    List.find?_eq_none.mpr fun p hp => by simp [(h p hp).2]
  refine ⟨(add_unknown_service st ts name).1, (add_unknown_service st ts name).2,
    ?_, ?_, ?_, ?_, ?_⟩
  · simp [get_service_info, hlk, hfind, optTruthy]
  · have hdb : (add_unknown_service st ts name).2.db =
        st.db ++ [(name, (add_unknown_service st ts name).1)] := by
      simp only [add_unknown_service]
      exact aSet_of_absent st.db name _ fun p hp => (h p hp).1
    have hlk2 : (add_unknown_service st ts name).2.db.lookup name =
        some (add_unknown_service st ts name).1 := by
      rw [hdb]
      exact lookup_append_last st.db name _ fun p hp => (h p hp).1
    simp [get_service_info, hlk2, optTruthy]
  · simp only [add_unknown_service]
    exact aSet_of_absent st.db name _ fun p hp => (h p hp).1
  · have hdb : (add_unknown_service st ts name).2.db =
        st.db ++ [(name, (add_unknown_service st ts name).1)] := by
      simp only [add_unknown_service]
      exact aSet_of_absent st.db name _ fun p hp => (h p hp).1
    rw [hdb, List.filter_append]
    have hnil : (st.db.filter fun p => p.1 == name) = [] :=
      List.filter_eq_nil_iff.mpr fun p hp => by simp [(h p hp).1]
    rw [hnil]
    simp
  · rfl

/-- A computation that is `ok` yields a value. -/
theorem exists_ok_of_isOk {α : Type} {e : Except PyErr α}
    (h : exceptIsOk e = true) : ∃ v, e = .ok v := by
  cases e with
  | ok v => exact ⟨v, rfl⟩
  | error e => simp [exceptIsOk] at h

/-- Assignment binds the key. -/
theorem lookup_aSet_self {α : Type} :
    ∀ (l : List (String × α)) (k : String) (v : α), (aSet l k v).lookup k = some v
  | [], k, v => by simp [aSet, List.lookup]
  | (k1, v1) :: rest, k, v => by
    simp only [aSet]
    by_cases h : k1 = k
    · simp [h, List.lookup]
    · simp only [if_neg h, List.lookup]
      have hk : (k == k1) = false := beq_eq_false_iff_ne.mpr (Ne.symm h)
      rw [hk]
      exact lookup_aSet_self rest k v

/-- Assignment leaves other keys alone. -/
theorem lookup_aSet_ne {α : Type} :
    ∀ (l : List (String × α)) (k k' : String) (v : α), (k == k') = false →
      (aSet l k' v).lookup k = l.lookup k
  | [], k, k', v, h => by simp [aSet, List.lookup, h]
  | (k1, v1) :: rest, k, k', v, h => by
    simp only [aSet]
    by_cases h1 : k1 = k'
    · subst h1
      simp only [if_pos rfl, List.lookup, h]
    · simp only [if_neg h1, List.lookup]
      cases hk : (k == k1) with
      | true => rfl
      | false => exact lookup_aSet_ne rest k k' v h

/-- Witness for C8: the double lookup run on the empty catalog with a
concrete previously-unseen name. -/
theorem C8_service_enrichment_witness :
    ∃ (rec : List (String × PyVal)) (st1 : DbState),
      get_service_info ⟨[], false, false⟩ "2026-10-12" "nginx" Option.none = .ok (rec, st1) ∧
      get_service_info st1 "2026-10-12" "nginx" Option.none = .ok (rec, st1) ∧
      st1.db = (⟨[], false, false⟩ : DbState).db ++ [("nginx", rec)] ∧
      (st1.db.filter fun p => p.1 == "nginx").length = 1 ∧
      dGet rec "_auto_generated" = .bool true :=
  C8_service_enrichment ⟨[], false, false⟩ "2026-10-12" "nginx"
    (fun p hp => absurd hp (List.not_mem_nil p))

/-- C9: a silent `kubectl` version probe makes both Kubernetes collectors
return the empty record `{}` with no further Kubernetes command issued,
while `collect_system_info` still fills every other section from its own
collector. -/
theorem C9_kubernetes_empty (client : Option (String → Option String))
    (hprobe : optTruthy (run_command client kubectlProbeCmd) = false) :
    get_kubernetes_info client = ([], [kubectlProbeCmd]) ∧
    collect_kubernetes_info client = ([], [kubectlProbeCmd]) ∧
    ∀ (hostname ts : String) (jparse : String → Option PyVal) (st : DbState)
      (info : List (String × PyVal)) (st' : DbState),
      collect_system_info hostname ts Option.none client jparse st = .ok (info, st') →
      info.lookup "kubernetes_info" = some (.dict []) ∧
      ∃ svcs st1 ports st2 prox,
        get_services client st ts = .ok (svcs, st1) ∧
        get_listening_ports client st1 ts = .ok (ports, st2) ∧
        get_proxmox_info client jparse = .ok prox ∧
        info.lookup "services" = some (.list (svcs.map PyVal.dict)) ∧
        info.lookup "docker_containers" =
          some (.list ((get_docker_containers client).map PyVal.dict)) ∧
        info.lookup "listening_ports" = some (.list (ports.map PyVal.dict)) ∧
        info.lookup "proxmox_info" = some (.dict prox) ∧
        st' = st2 := by
  have h1 : get_kubernetes_info client = ([], [kubectlProbeCmd]) := by
    simp [get_kubernetes_info, hprobe]
  have h2 : collect_kubernetes_info client = ([], [kubectlProbeCmd]) := by
    simp [collect_kubernetes_info, hprobe]
  refine ⟨h1, h2, ?_⟩
  intro hostname ts jparse st info st' h
  unfold collect_system_info at h
  cases hs : get_services client st ts with
  | error e => rw [hs] at h; simp [Bind.bind, Except.bind] at h
  | ok p =>
    obtain ⟨svcs, st1⟩ := p
    rw [hs] at h
    simp only [Bind.bind, Except.bind] at h
    cases hp : get_listening_ports client st1 ts with
    | error e => rw [hp] at h; simp at h
    | ok q =>
      obtain ⟨ports, st2⟩ := q
      rw [hp] at h
      simp only at h
      cases hx : get_proxmox_info client jparse with
      | error e => rw [hx] at h; simp at h
      | ok prox =>
        rw [hx] at h
        simp only [Except.ok.injEq, Prod.mk.injEq] at h
        obtain ⟨hinfo, hst⟩ := h
        subst hinfo
        refine ⟨?_, svcs, st1, ports, st2, prox, rfl, hp, rfl, ?_, ?_, ?_, ?_, hst.symm⟩
        · rw [lookup_aSet_ne _ _ _ _ (by decide), lookup_aSet_self, h1]
        · rw [lookup_aSet_ne _ _ _ _ (by decide), lookup_aSet_ne _ _ _ _ (by decide),
            lookup_aSet_ne _ _ _ _ (by decide), lookup_aSet_ne _ _ _ _ (by decide),
            lookup_aSet_self]
        · rw [lookup_aSet_ne _ _ _ _ (by decide), lookup_aSet_ne _ _ _ _ (by decide),
            lookup_aSet_ne _ _ _ _ (by decide), lookup_aSet_self]
        · rw [lookup_aSet_ne _ _ _ _ (by decide), lookup_aSet_ne _ _ _ _ (by decide),
            lookup_aSet_self]
        · rw [lookup_aSet_self]

/-- Witness for C9: a bound channel on which every command is silent —
`kubectl` in particular — evaluated concretely. -/
theorem C9_kubernetes_empty_witness :
    get_kubernetes_info (some fun _ => Option.none) = ([], [kubectlProbeCmd]) ∧
    ∃ (info : List (String × PyVal)) (st' : DbState),
      collect_system_info "host1" "2026-10-12T00:00:00" Option.none
        (some fun _ => Option.none) (fun _ => Option.none) ⟨[], false, false⟩ =
        .ok (info, st') ∧
      info.lookup "kubernetes_info" = some (.dict []) := by
  have main := C9_kubernetes_empty (some fun _ => Option.none) rfl
  refine ⟨main.1, ?_⟩
  obtain ⟨v, hv⟩ := exists_ok_of_isOk (e := collect_system_info "host1" "2026-10-12T00:00:00"
    Option.none (some fun _ => Option.none) (fun _ => Option.none) ⟨[], false, false⟩) rfl
  exact ⟨v.1, v.2, by rw [hv],
    (main.2.2 "host1" "2026-10-12T00:00:00" (fun _ => Option.none) ⟨[], false, false⟩
      v.1 v.2 (by rw [hv])).1⟩

/-- C10: with no SSH client bound, `run_command` yields `None` for every
command, and every collector degrades: empty lists from the service,
Docker and port collectors, the empty record from the Kubernetes and
Proxmox collectors. -/
theorem C10_no_client_degrades :
    (∀ cmd : String, run_command Option.none cmd = Option.none) ∧
    (∀ (st : DbState) (ts : String), get_services Option.none st ts = .ok ([], st)) ∧
    get_docker_containers Option.none = [] ∧
    (∀ (st : DbState) (ts : String), get_listening_ports Option.none st ts = .ok ([], st)) ∧
    (get_kubernetes_info Option.none).1 = [] ∧
    ∀ jparse : String → Option PyVal, get_proxmox_info Option.none jparse = .ok [] :=
  ⟨fun _ => rfl, fun _ _ => rfl, rfl, fun _ _ => rfl, rfl, fun _ => rfl⟩

/-- The attempted transports are an in-order selection of the plan. -/
theorem runCascadeGo_sublist (timeout : Nat) (succeeds : Transport → Bool) :
    ∀ l : List Transport,
      ((runCascadeGo timeout succeeds l).1.map Attempt.transport).Sublist l
  | [] => by simp [runCascadeGo]
  | t :: ts => by
    simp only [runCascadeGo]
    by_cases h : succeeds t = true
    · simp only [if_pos h, List.map]
      exact (List.nil_sublist ts).cons₂ t
    · simp only [if_neg h, List.map]
      exact (runCascadeGo_sublist timeout succeeds ts).cons₂ t

/-- Every attempt carries the configured timeout. -/
theorem runCascadeGo_timeout (timeout : Nat) (succeeds : Transport → Bool) :
    ∀ (l : List Transport) (a : Attempt),
      a ∈ (runCascadeGo timeout succeeds l).1 → a.timeout = timeout
  | [], a, h => by simp [runCascadeGo] at h
  | t :: ts, a, h => by
    simp only [runCascadeGo] at h
    by_cases hs : succeeds t = true
    · simp [hs] at h
      subst h
      rfl
    · simp only [if_neg hs, List.mem_cons] at h
      rcases h with h | h
      · subst h; rfl
      · exact runCascadeGo_timeout timeout succeeds ts a h

/-- A successful cascade stops at the first succeeding transport: the
attempt list is the failing prefix followed by the winner. -/
theorem runCascadeGo_first_success (timeout : Nat) (succeeds : Transport → Bool) :
    ∀ (l : List Transport) (t : Transport),
      (runCascadeGo timeout succeeds l).2 = some t →
      succeeds t = true ∧
      ∃ pre, (runCascadeGo timeout succeeds l).1.map Attempt.transport = pre ++ [t] ∧
        ∀ t' ∈ pre, succeeds t' = false
  | [], t, h => by simp [runCascadeGo] at h
  | t0 :: ts, t, h => by
    simp only [runCascadeGo] at h ⊢
    by_cases hs : succeeds t0 = true
    · simp only [if_pos hs] at h ⊢
      cases h
      exact ⟨hs, [], by simp, by simp⟩
    · simp only [if_neg hs] at h ⊢
      obtain ⟨hsucc, pre, hpre, hfail⟩ := runCascadeGo_first_success timeout succeeds ts t h
      refine ⟨hsucc, t0 :: pre, ?_, ?_⟩
      · simp [hpre]
      · intro t' ht'
        rcases List.mem_cons.mp ht' with h1 | h1
        · subst h1; simpa using hs
        · exact hfail t' h1

/-- C1 (spec-modelled — the cascade revision of `SystemCollector` is
absent from this tree, see `transportPlan`): the cascade attempts
transports as an in-order selection of the fixed priority
remote-management → password-SSH → key-SSH, skipping unconfigured
transports; every attempt is timeboxed with the configured timeout; a
success ends the cascade at the first succeeding transport; and with
remote-management and password-SSH credentials configured, key-SSH is
only ever attempted after both of them. -/
theorem C1_connection_cascade (c : CascadeConfig) (succeeds : Transport → Bool) :
    ((runCascade c succeeds).1.map Attempt.transport).Sublist
      [Transport.winrm, Transport.passwordSSH, Transport.keySSH] ∧
    (∀ a ∈ (runCascade c succeeds).1, a.timeout = c.ssh_timeout) ∧
    (∀ t, (runCascade c succeeds).2 = some t →
       succeeds t = true ∧
       ∃ pre, (runCascade c succeeds).1.map Attempt.transport = pre ++ [t] ∧
         ∀ t' ∈ pre, succeeds t' = false) ∧
    (winrmConfigured c = true → passwordSshConfigured c = true →
       transportPlan c = [Transport.winrm, Transport.passwordSSH, Transport.keySSH] ∧
       (Transport.keySSH ∈ (runCascade c succeeds).1.map Attempt.transport →
         (runCascade c succeeds).1.map Attempt.transport =
           [Transport.winrm, Transport.passwordSSH, Transport.keySSH])) := by
  have hplan : (transportPlan c).Sublist
      [Transport.winrm, Transport.passwordSSH, Transport.keySSH] := by
    unfold transportPlan
    by_cases hw : winrmConfigured c = true <;>
      by_cases hp : passwordSshConfigured c = true <;>
        simp [hw, hp]
  refine ⟨(runCascadeGo_sublist c.ssh_timeout succeeds (transportPlan c)).trans hplan,
    fun a ha => runCascadeGo_timeout c.ssh_timeout succeeds (transportPlan c) a ha,
    fun t ht => runCascadeGo_first_success c.ssh_timeout succeeds (transportPlan c) t ht,
    ?_⟩
  intro hw hp
  have hple : transportPlan c = [Transport.winrm, Transport.passwordSSH, Transport.keySSH] := by
    simp [transportPlan, hw, hp]
  refine ⟨hple, ?_⟩
  intro hk
  unfold runCascade at hk ⊢
  rw [hple] at hk ⊢
  by_cases h1 : succeeds Transport.winrm = true
  · simp [runCascadeGo, h1] at hk
  · by_cases h2 : succeeds Transport.passwordSSH = true
    · simp [runCascadeGo, h1, h2] at hk
    · by_cases h3 : succeeds Transport.keySSH = true
      · simp [runCascadeGo, h1, h2, h3]
      · simp [runCascadeGo, h1, h2, h3]

/-- Witness for C1: a fully credentialled configuration where only
key-SSH answers — the other two transports are attempted first, and the
cascade exits at key-SSH. -/
theorem C1_connection_cascade_witness :
    transportPlan cfgFull = [Transport.winrm, Transport.passwordSSH, Transport.keySSH] ∧
    (runCascade cfgFull succKeyOnly).1.map Attempt.transport =
      [Transport.winrm, Transport.passwordSSH, Transport.keySSH] ∧
    succKeyOnly Transport.keySSH = true ∧
    (∀ a ∈ (runCascade cfgFull succKeyOnly).1, a.timeout = cfgFull.ssh_timeout) := by
  refine ⟨((C1_connection_cascade cfgFull succKeyOnly).2.2.2 rfl rfl).1,
    ((C1_connection_cascade cfgFull succKeyOnly).2.2.2 rfl rfl).2 (by decide), ?_, ?_⟩
  · exact ((C1_connection_cascade cfgFull succKeyOnly).2.2.1 Transport.keySSH rfl).1
  · exact fun a ha => (C1_connection_cascade cfgFull succKeyOnly).2.1 a ha

/-- C2 (spec-modelled, same grounds as C1): a reachable host record
carries exactly one platform tag drawn from `PlatformTag =`
{linux, windows, nas}; an unreachable record carries no tag, empty
sub-records, and a failure reason from the closed six-element set `FailureReason`
whose rendered text is non-empty. -/
theorem C2_platform_tag_invariant (c : CascadeConfig) (succeeds : Transport → Bool)
    (errOf : Transport → String) (marker : Bool)
    (collectFor : PlatformTag → List (String × PyVal)) :
    ((collectSystemInfoSpec c succeeds errOf marker collectFor).reachable = true →
       ∃ tag, (collectSystemInfoSpec c succeeds errOf marker collectFor).platform = some tag) ∧
    ((collectSystemInfoSpec c succeeds errOf marker collectFor).reachable = false →
       (collectSystemInfoSpec c succeeds errOf marker collectFor).platform = Option.none ∧
       (collectSystemInfoSpec c succeeds errOf marker collectFor).sub_records = [] ∧
       ∃ fr, (collectSystemInfoSpec c succeeds errOf marker collectFor).failure_reason =
           some fr ∧ failureText fr ≠ "") := by
  have htext : ∀ fr : FailureReason, failureText fr ≠ "" := by
    intro fr; cases fr <;> decide
  cases hr : (runCascade c succeeds).2 with
  | some t =>
    constructor
    · intro _
      exact ⟨refineTag t marker, by simp [collectSystemInfoSpec, hr]⟩
    · intro h
      simp [collectSystemInfoSpec, hr] at h
  | none =>
    constructor
    · intro h
      simp [collectSystemInfoSpec, hr] at h
    · intro _
      refine ⟨by simp [collectSystemInfoSpec, hr], by simp [collectSystemInfoSpec, hr],
        classifyError (errOf ((((runCascade c succeeds).1.getLast?).map
          Attempt.transport).getD Transport.keySSH)),
        by simp [collectSystemInfoSpec, hr], htext _⟩

/-- Witness for C2: both branches instantiated — a key-SSH host refined
to Linux, and an all-fail host whose last error is a timeout. -/
theorem C2_platform_tag_invariant_witness :
    (∃ tag, (collectSystemInfoSpec cfgFull succKeyOnly (fun _ => "") false
       (fun _ => [])).platform = some tag) ∧
    ((collectSystemInfoSpec cfgFull (fun _ => false) (fun _ => "Connection timed out")
       false (fun _ => [])).platform = Option.none ∧
     (collectSystemInfoSpec cfgFull (fun _ => false) (fun _ => "Connection timed out")
       false (fun _ => [])).sub_records = [] ∧
     ∃ fr, (collectSystemInfoSpec cfgFull (fun _ => false) (fun _ => "Connection timed out")
       false (fun _ => [])).failure_reason = some fr ∧ failureText fr ≠ "") :=
  ⟨(C2_platform_tag_invariant cfgFull succKeyOnly (fun _ => "") false (fun _ => [])).1 rfl,
   (C2_platform_tag_invariant cfgFull (fun _ => false) (fun _ => "Connection timed out")
     false (fun _ => [])).2 rfl⟩

end LabDoc
